import Mathlib

/-!
# Xbox 360 controller driver: axis normalizer, accessory handshake, read and write
# completions, teardown and start

A shallow embedding of parts of `src/360Controller/_60Controller.cpp`
(class `Xbox360Peripheral`) together with theorems about them.

Conventions of the embedding:

* `SInt16` / `short` values are integers in `-32768 .. 32767` (`isSInt16`); a store
  into a 16-bit signed variable is `toSInt16`.
* The C operator `~` on a (promoted) integer is `~~~` on `Int`, i.e. `-x - 1`.
* `float` is IEEE 754 binary32 with round to nearest, ties to even
  (`roundBinary32`): in `normalizeAxis` the product and the quotient are each
  rounded; the integers converted to `float` there have at most 16 bits and are
  exact. The conversion of a `float` to `SInt16` truncates toward zero
  (`truncToInt`).
* `getAbsolute` is the `__LITTLE_ENDIAN__` build of the function.
* Functions that call collaborators return the list of calls made, in program
  order, next to their result; what a collaborator returns is an argument.
* `start` is embedded as a list of guarded statements with labels (`exec`).
-/

namespace Xbox360Peripheral

/-! ## Axis normalizer -/

/-- Range of a signed 16-bit integer (`SInt16`, `Xbox360_SShort`, `short`). -/
def isSInt16 (v : Int) : Prop := -32768 ≤ v ∧ v ≤ 32767

instance (v : Int) : Decidable (isSInt16 v) := by unfold isSInt16; infer_instance

/-- Store of an integer into a signed 16-bit variable (two's complement wrap). -/
def toSInt16 (v : Int) : Int := (v + 32768) % 65536 - 32768

/-- Source `getAbsolute` (lines 719-731), little-endian build: `reverse = value`,
then `(reverse<0) ? ~reverse : reverse`, returned as a signed 16-bit value. -/
def getAbsolute (value : Int) : Int :=
  let reverse := value
  if reverse < 0 then toSInt16 (~~~reverse) else reverse

/-- Conversion of a `float` value to an integer type: truncation toward zero. -/
def truncToInt (q : ℚ) : Int := if 0 ≤ q then ⌊q⌋ else ⌈q⌉

/-- Rounding of a rational to the nearest integer, ties to the even integer. -/
def roundHalfEven (q : ℚ) : Int :=
  if q - ⌊q⌋ < 1 / 2 then ⌊q⌋
  else if 1 / 2 < q - ⌊q⌋ then ⌊q⌋ + 1
  else if ⌊q⌋ % 2 = 0 then ⌊q⌋ else ⌊q⌋ + 1

/-- Rounding of a rational to IEEE 754 binary32 (`float`), round to nearest with
ties to even: with `e` the binary exponent of `q` (`2^e <= |q| < 2^(e+1)`), the
value is rounded to a multiple of `2^(e-23)`, which leaves a significand of 24
bits. Overflow and subnormal numbers are not modelled; the values rounded in
`normalizeAxis` lie between 1 and `2^31`. -/
def roundBinary32 (q : ℚ) : ℚ :=
  if q = 0 then 0
  else (roundHalfEven (q / (2 : ℚ) ^ (Int.log 2 |q| - 23)) : ℚ) * (2 : ℚ) ^ (Int.log 2 |q| - 23)

/-- The `float` expression `max16*(current-deadzone)/maxVal` of lines 741 and
744. `max16`, `deadzone` and the operands are integers of at most 16 bits, whose
conversion to `float` and whose difference are exact; the product is rounded
to binary32, and so is the quotient of the rounded product by `maxVal`. -/
def rescaleExpr (current deadzone maxVal : ℚ) : ℚ :=
  roundBinary32 (roundBinary32 ((32767 : ℚ) * (current - deadzone)) / maxVal)

/-- Source `Xbox360Peripheral::normalizeAxis` (lines 733-749). The reference
parameter `axis` is passed in and its final value is returned. `current` and
`maxVal` are `float` in the source and hold integers, which binary32 represents
exactly; the rescaling expression is evaluated in binary32 (`rescaleExpr`) and
its value is truncated by the store into `axis`. -/
def normalizeAxis (axis deadzone : Int) : Int :=
  let max16 : Int := 32767
  let current : ℚ := (getAbsolute axis : ℚ)
  let maxVal : ℚ := ((max16 - deadzone : Int) : ℚ)
  if current > (deadzone : ℚ) then
    if axis < 0 then
      toSInt16 (~~~ (toSInt16 (truncToInt (rescaleExpr current (deadzone : ℚ) maxVal))))
    else
      toSInt16 (truncToInt (rescaleExpr current (deadzone : ℚ) maxVal))
  else 0

/-- The magnitude `normalizeAxis` computes for an input magnitude `m` above the
dead-zone `d`: the binary32 value of the rescaling expression, truncated. -/
def floatRescale (m d : Int) : Int :=
  truncToInt (rescaleExpr (m : ℚ) (d : ℚ) (((32767 : Int) - d : Int) : ℚ))

/-- The rescaled magnitude as the specification words it, to be compared with
`normalizeAxis`: `32767 * (m - d) / (32767 - d)` formed by exact division and
then truncated to an integer. -/
def specRescale (m d : Int) : Int :=
  truncToInt ((32767 : ℚ) * ((m : ℚ) - (d : ℚ)) / ((32767 : ℚ) - (d : ℚ)))

/-- One analog stick of a report (`XBOX360_HAT`): two signed 16-bit axes. -/
structure XBOX360_HAT where
  x : Int
  y : Int
  deriving DecidableEq

/-- The settings read by `fiddleReport`, named as the member variables. Their
declarations are in a header outside the sources; the flags are booleans and
the dead-zones are integers in the range of `short`. -/
structure AxisSettings where
  invertLeftX : Bool
  invertLeftY : Bool
  invertRightX : Bool
  invertRightY : Bool
  deadzoneLeft : Int
  deadzoneRight : Int
  relativeLeft : Bool
  relativeRight : Bool
  deadOffLeft : Bool
  deadOffRight : Bool

/-- The four inversion statements of `fiddleReport` (lines 756-759). -/
def invertAxes (cfg : AxisSettings) (left right : XBOX360_HAT) :
    XBOX360_HAT × XBOX360_HAT :=
  let left := if cfg.invertLeftX then { left with x := toSInt16 (~~~left.x) } else left
  let left := if !cfg.invertLeftY then { left with y := toSInt16 (~~~left.y) } else left
  let right := if cfg.invertRightX then { right with x := toSInt16 (~~~right.x) } else right
  let right := if !cfg.invertRightY then { right with y := toSInt16 (~~~right.y) } else right
  (left, right)

/-- The block `if(deadzoneLeft!=0) { ... }` of `fiddleReport` (lines 761-782). -/
def deadzoneLeftBlock (cfg : AxisSettings) (left : XBOX360_HAT) : XBOX360_HAT :=
  if cfg.deadzoneLeft ≠ 0 then
    if cfg.relativeLeft then
      if getAbsolute left.x < cfg.deadzoneLeft ∧ getAbsolute left.y < cfg.deadzoneLeft then
        { x := 0, y := 0 }
      else if cfg.deadOffLeft then
        { x := normalizeAxis left.x cfg.deadzoneLeft,
          y := normalizeAxis left.y cfg.deadzoneLeft }
      else left
    else
      let left :=
        if getAbsolute left.x < cfg.deadzoneLeft then { left with x := 0 }
        else if cfg.deadOffLeft then { left with x := normalizeAxis left.x cfg.deadzoneLeft }
        else left
      let left :=
        if getAbsolute left.y < cfg.deadzoneLeft then { left with y := 0 }
        else if cfg.deadOffLeft then { left with y := normalizeAxis left.y cfg.deadzoneLeft }
        else left
      left
  else left

/-- The block `if(deadzoneRight!=0) { ... }` of `fiddleReport` (lines 783-803).
In the linked branch with `deadOffRight` the source calls `normalizeAxis` on
`left.x` and `left.y` (lines 790-791), so the block can change both sticks. -/
def deadzoneRightBlock (cfg : AxisSettings) (left right : XBOX360_HAT) :
    XBOX360_HAT × XBOX360_HAT :=
  if cfg.deadzoneRight ≠ 0 then
    if cfg.relativeRight then
      if getAbsolute right.x < cfg.deadzoneRight ∧ getAbsolute right.y < cfg.deadzoneRight then
        (left, { x := 0, y := 0 })
      else if cfg.deadOffRight then
        ({ x := normalizeAxis left.x cfg.deadzoneRight,
           y := normalizeAxis left.y cfg.deadzoneRight }, right)
      else (left, right)
    else
      let right :=
        if getAbsolute right.x < cfg.deadzoneRight then { right with x := 0 }
        else if cfg.deadOffRight then
          { right with x := normalizeAxis right.x cfg.deadzoneRight }
        else right
      let right :=
        if getAbsolute right.y < cfg.deadzoneRight then { right with y := 0 }
        else if cfg.deadOffRight then
          { right with y := normalizeAxis right.y cfg.deadzoneRight }
        else right
      (left, right)
  else (left, right)

/-- Source `Xbox360Peripheral::fiddleReport` (lines 751-804). The two reference
parameters are passed in and their final values are returned. -/
def fiddleReport (cfg : AxisSettings) (left right : XBOX360_HAT) :
    XBOX360_HAT × XBOX360_HAT :=
  let (left, right) := invertAxes cfg left right
  let left := deadzoneLeftBlock cfg left
  deadzoneRightBlock cfg left right

/-! ## Accessory handshake state machine -/

/-- States of the handshake timer (`serialTimerState`), named as in the source. -/
inductive TimerState where
  | tsToggle
  | tsReset1
  | tsReset2
  | tsMiniToggle
  | tsSet1
  | tsSet2
  | tsSet3
  deriving DecidableEq

/-- The member variables read and written by `ChatPadTimerAction`.
`serialResetCount` is a counter whose declared type is in a header that is not
part of the sources; it is a natural number here. -/
structure SerialState where
  serialTimerState : TimerState
  serialToggle : Bool
  serialActive : Bool
  serialHeard : Bool
  serialResetCount : Nat
  deriving DecidableEq

/-- Observable effects of one timer tick, in program order. -/
inductive TimerEffect where
  | sendSpecial (value : Nat)
  | setTimeoutMS (ms : Nat)
  | serialConnect
  | serialDisconnect
  deriving DecidableEq

/-- Source `Xbox360Peripheral::SendToggle` (lines 110-114): the control message
sent and the flipped `serialToggle`. -/
def SendToggle (s : SerialState) : SerialState × TimerEffect :=
  ({ s with serialToggle := !s.serialToggle },
   TimerEffect.sendSpecial (if s.serialToggle then 0x1F else 0x1E))

/-- The `switch (serialTimerState)` of `ChatPadTimerAction` (lines 128-206):
the state after the switch, the messages sent, `nextTime` and `serialGot`. -/
def timerSwitch (s : SerialState) : SerialState × List TimerEffect × Nat × Nat :=
  match s.serialTimerState with
  | TimerState.tsToggle =>
    let (s1, msg) := SendToggle s
    if s1.serialActive then
      if !s1.serialHeard then
        ({ s1 with serialActive := false }, [msg], 1000, 2)
      else
        (s1, [msg], 1000, 0)
    else
      if s1.serialHeard then
        ({ s1 with serialTimerState := TimerState.tsReset1, serialResetCount := 0 },
         [msg], 40, 0)
      else
        (s1, [msg], 1000, 0)
  | TimerState.tsMiniToggle =>
    let (s1, msg) := SendToggle s
    if s1.serialHeard then
      ({ s1 with serialTimerState := TimerState.tsSet1 }, [msg], 40, 0)
    else
      let s2 := { s1 with serialResetCount := s1.serialResetCount + 1 }
      if s2.serialResetCount > 3 then
        ({ s2 with serialTimerState := TimerState.tsToggle }, [msg], 1000, 0)
      else
        ({ s2 with serialTimerState := TimerState.tsReset1 }, [msg], 40, 0)
  | TimerState.tsReset1 =>
    ({ s with serialTimerState := TimerState.tsReset2 },
     [TimerEffect.sendSpecial 0x1B], 35, 0)
  | TimerState.tsReset2 =>
    ({ s with serialTimerState := TimerState.tsMiniToggle },
     [TimerEffect.sendSpecial 0x1B], 150, 0)
  | TimerState.tsSet1 =>
    ({ s with serialTimerState := TimerState.tsSet2 },
     [TimerEffect.sendSpecial 0x18], 10, 0)
  | TimerState.tsSet2 =>
    ({ s with serialTimerState := TimerState.tsSet3 },
     [TimerEffect.sendSpecial 0x10], 10, 0)
  | TimerState.tsSet3 =>
    ({ s with serialTimerState := TimerState.tsToggle, serialActive := true },
     [TimerEffect.sendSpecial 0x03], 940, 1)

/-- The final `switch (serialGot)` of `ChatPadTimerAction` (lines 210-222). -/
def dispatchGot (serialGot : Nat) : List TimerEffect :=
  match serialGot with
  | 1 => [TimerEffect.serialConnect]
  | 2 => [TimerEffect.serialDisconnect]
  | _ => []

/-- Source `Xbox360Peripheral::ChatPadTimerAction` (lines 124-223): one timer
tick. Returns the new state and the effects in program order: the messages of
the state switch, then `setTimeoutMS(nextTime)`, then (after `serialHeard` is
cleared) the connect or disconnect call selected by `serialGot`. -/
def ChatPadTimerAction (s : SerialState) : SerialState × List TimerEffect :=
  let (s1, msgs, nextTime, serialGot) := timerSwitch s
  ({ s1 with serialHeard := false },
   msgs ++ [TimerEffect.setTimeoutMS nextTime] ++ dispatchGot serialGot)

/-- One tick executed with the activity-heard flag holding `heard` when the tick
starts (the flag is set by `SerialReadComplete` between ticks). -/
def tickWith (s : SerialState) (heard : Bool) : SerialState × List TimerEffect :=
  ChatPadTimerAction { s with serialHeard := heard }

/-- Consecutive ticks; `heard` lists the value of the activity-heard flag at the
start of each tick. Returns the final state and, per tick, the state in which
the tick executed together with its effects. -/
def runTicks (s : SerialState) (heard : List Bool) :
    SerialState × List (TimerState × List TimerEffect) :=
  match heard with
  | [] => (s, [])
  | h :: rest =>
    let (s1, eff) := tickWith s h
    let (s2, log) := runTicks s1 rest
    (s2, (s.serialTimerState, eff) :: log)

/-- Delay programmed by a tick: the arguments of its `setTimeoutMS` calls. -/
def delaysOf (effs : List TimerEffect) : List Nat :=
  effs.filterMap fun e =>
    match e with
    | TimerEffect.setTimeoutMS ms => some ms
    | _ => none

/-- Number of `SerialConnect` calls among the effects. -/
def connectCount (effs : List TimerEffect) : Nat :=
  effs.count TimerEffect.serialConnect

/-- Number of `SerialDisconnect` calls among the effects. -/
def disconnectCount (effs : List TimerEffect) : Nat :=
  effs.count TimerEffect.serialDisconnect

/-- All effects of a run, tick after tick. -/
def allEffects (log : List (TimerState × List TimerEffect)) : List TimerEffect :=
  (log.map Prod.snd).flatten

/-- The states in which the ticks of a run executed. -/
def executedStates (log : List (TimerState × List TimerEffect)) : List TimerState :=
  log.map Prod.fst

/-! ## Read completions and frame classification -/

/-- Completion status of a transfer, as far as the completion handlers
distinguish it: the three `case` labels and `default`. -/
inductive IOReturn where
  | kIOReturnSuccess
  | kIOReturnOverrun
  | kIOReturnNotResponding
  | otherStatus
  deriving DecidableEq

/-- Contents of the primary read buffer seen through `XBOX360_IN_REPORT`:
the two header fields (`UInt8` each) and the bytes after the header. -/
structure InReportBuffer where
  command : Nat
  size : Nat
  payload : List Nat
  deriving DecidableEq

/-- Calls made by the completion handlers on their collaborators, in program order. -/
inductive IOEffect where
  | logOverrun
  | logNotResponding
  | logHandleReportFailed
  | clearStallIn
  | clearStallSerialIn
  | padHandleReport (buf : InReportBuffer)
  | serialHandleReport (data : List Nat)
  | queueRead
  | queueSerialRead
  deriving DecidableEq

/-- What `ReadComplete` reads from the driver object and its collaborators. -/
structure ReadCtx where
  /-- Whether `padHandler != NULL` -/
  padHandlerAttached : Bool
  /-- Result of `isInactive()` -/
  inactive : Bool
  /-- Whether `inPipe != NULL` -/
  inPipePresent : Bool
  /-- The buffer `inBuffer`, `none` for `NULL` -/
  inBuffer : Option InReportBuffer
  /-- Value returned by `padHandler->handleReport` -/
  handleReportResult : IOReturn

/-- The `kIOReturnSuccess` case of `ReadComplete` (lines 841-853), also reached
by falling through from the overrun case. `inReport` and `sizeofInReport`
stand for the enumerator `inReport` and `sizeof(XBOX360_IN_REPORT)`, whose
declarations are in a header outside the sources. -/
def readSuccessCase (inReport sizeofInReport : Nat) (c : ReadCtx) : List IOEffect :=
  match c.inBuffer with
  | none => []
  | some report =>
    if (report.command = inReport ∧ report.size = sizeofInReport)
        ∨ report.command = 0x20 ∨ report.command = 0x07 then
      [IOEffect.padHandleReport report] ++
        (if c.handleReportResult ≠ IOReturn.kIOReturnSuccess
          then [IOEffect.logHandleReportFailed] else [])
    else []

/-- Source `Xbox360Peripheral::ReadComplete` (lines 827-864). -/
def ReadComplete (inReport sizeofInReport : Nat) (c : ReadCtx) (status : IOReturn) :
    List IOEffect :=
  if c.padHandlerAttached then
    let reread := !c.inactive
    let (effs, reread) :=
      match status with
      | IOReturn.kIOReturnOverrun =>
        ([IOEffect.logOverrun] ++ (if c.inPipePresent then [IOEffect.clearStallIn] else [])
          ++ readSuccessCase inReport sizeofInReport c, reread)
      | IOReturn.kIOReturnSuccess => (readSuccessCase inReport sizeofInReport c, reread)
      | IOReturn.kIOReturnNotResponding => ([IOEffect.logNotResponding], false)
      | IOReturn.otherStatus => ([], false)
    effs ++ (if reread then [IOEffect.queueRead] else [])
  else []

/-- Source `Xbox360Peripheral::SerialMessage` (lines 1083-1091).
`serialHandlerAttached` is `serialHandler != NULL`, `data` the bytes of the
buffer, `buffer[0]` its first byte. -/
def SerialMessage (serialHandlerAttached : Bool) (data : List Nat) (length : Nat) :
    List IOEffect :=
  if serialHandlerAttached then
    if length = 5 ∧ data.head? = some 0x00 then [IOEffect.serialHandleReport data] else []
  else []

/-- Subtraction of two `size_t` values (64-bit unsigned, wrapping). -/
def sizeSub (a b : Nat) : Nat := (a % 2 ^ 64 + 2 ^ 64 - b % 2 ^ 64) % 2 ^ 64

/-- What `SerialReadComplete` reads from the driver object. -/
structure SerialReadCtx where
  /-- Whether `padHandler != NULL` -/
  padHandlerAttached : Bool
  /-- Result of `isInactive()` -/
  inactive : Bool
  /-- Whether `serialInPipe != NULL` -/
  serialInPipePresent : Bool
  /-- Bytes of `serialInBuffer` (its capacity is their number), `none` for `NULL` -/
  serialInBuffer : Option (List Nat)
  /-- Whether `serialHandler != NULL` -/
  serialHandlerAttached : Bool
  /-- The flag `serialHeard` before the call -/
  serialHeard : Bool

/-- The `kIOReturnSuccess` case of `SerialReadComplete` (lines 880-884). -/
def serialSuccessCase (c : SerialReadCtx) (bufferSizeRemaining : Nat) : List IOEffect :=
  match c.serialInBuffer with
  | none => []
  | some data =>
    SerialMessage c.serialHandlerAttached data (sizeSub data.length bufferSizeRemaining)

/-- Source `Xbox360Peripheral::SerialReadComplete` (lines 866-898): the value of
`serialHeard` after the call and the calls made. -/
def SerialReadComplete (c : SerialReadCtx) (status : IOReturn) (bufferSizeRemaining : Nat) :
    Bool × List IOEffect :=
  if c.padHandlerAttached then
    let reread := !c.inactive
    let (heard, effs, reread) :=
      match status with
      | IOReturn.kIOReturnOverrun =>
        (true, [IOEffect.logOverrun]
          ++ (if c.serialInPipePresent then [IOEffect.clearStallSerialIn] else [])
          ++ serialSuccessCase c bufferSizeRemaining, reread)
      | IOReturn.kIOReturnSuccess => (true, serialSuccessCase c bufferSizeRemaining, reread)
      | IOReturn.kIOReturnNotResponding => (c.serialHeard, [IOEffect.logNotResponding], false)
      | IOReturn.otherStatus => (c.serialHeard, [], false)
    (heard, effs ++ (if reread then [IOEffect.queueSerialRead] else []))
  else (c.serialHeard, [])

/-- Number of calls of the pad handler among the effects. -/
def padHandlerCalls (effs : List IOEffect) : Nat :=
  effs.countP fun e =>
    match e with
    | IOEffect.padHandleReport _ => true
    | _ => false

/-- Number of calls of the accessory handler among the effects. -/
def serialHandlerCalls (effs : List IOEffect) : Nat :=
  effs.countP fun e =>
    match e with
    | IOEffect.serialHandleReport _ => true
    | _ => false

/-- Number of error log lines among the effects. -/
def errorLogs (effs : List IOEffect) : Nat :=
  effs.countP fun e =>
    match e with
    | IOEffect.logOverrun => true
    | IOEffect.logNotResponding => true
    | IOEffect.logHandleReportFailed => true
    | _ => false

/-! ## Arming reads -/

/-- Calls made by `QueueRead` and `QueueSerialRead` on the transport. -/
inductive PipeEffect where
  | inPipeRead
  | serialInPipeRead
  | logReadFailedToStart
  | logSerialReadFailedToStart
  deriving DecidableEq

/-- Source `Xbox360Peripheral::QueueRead` (lines 566-582): the value returned
and the calls made. `readResult` is what `inPipe->Read` returns. -/
def QueueRead (inPipePresent inBufferPresent : Bool) (readResult : IOReturn) :
    Bool × List PipeEffect :=
  if !inPipePresent || !inBufferPresent then (false, [])
  else if readResult = IOReturn.kIOReturnSuccess then (true, [PipeEffect.inPipeRead])
  else (false, [PipeEffect.inPipeRead, PipeEffect.logReadFailedToStart])

/-- Source `Xbox360Peripheral::QueueSerialRead` (lines 584-604): the value
returned and the calls made. `readResult` is what `serialInPipe->Read` returns. -/
def QueueSerialRead (serialInPipePresent serialInBufferPresent : Bool)
    (readResult : IOReturn) : Bool × List PipeEffect :=
  if !serialInPipePresent || !serialInBufferPresent then (false, [])
  else if readResult = IOReturn.kIOReturnSuccess then (true, [PipeEffect.serialInPipeRead])
  else (false, [PipeEffect.serialInPipeRead, PipeEffect.logSerialReadFailedToStart])

/-- The transport calls made by the `QueueRead()` calls of `ReadComplete`. -/
def readsFromReadComplete (inReport sizeofInReport : Nat) (c : ReadCtx) (status : IOReturn)
    (readResult : IOReturn) : List PipeEffect :=
  (ReadComplete inReport sizeofInReport c status).flatMap fun e =>
    match e with
    | IOEffect.queueRead => (QueueRead c.inPipePresent c.inBuffer.isSome readResult).2
    | _ => []

/-- The transport calls made by the `QueueSerialRead()` calls of
`SerialReadComplete`. -/
def readsFromSerialReadComplete (c : SerialReadCtx) (status : IOReturn)
    (bufferSizeRemaining : Nat) (readResult : IOReturn) : List PipeEffect :=
  (SerialReadComplete c status bufferSizeRemaining).2.flatMap fun e =>
    match e with
    | IOEffect.queueSerialRead =>
      (QueueSerialRead c.serialInPipePresent c.serialInBuffer.isSome readResult).2
    | _ => []

/-! ## Teardown -/

/-- Which of the objects released by `ReleaseAll` are present (non-`NULL`). -/
structure DriverObjects where
  serialHandler : Bool
  padHandler : Bool
  serialTimer : Bool
  serialInPipe : Bool
  serialInBuffer : Bool
  serialIn : Bool
  outPipe : Bool
  inPipe : Bool
  inBuffer : Bool
  interface : Bool
  device : Bool
  deriving DecidableEq

/-- Calls made during teardown, named after receiver and method. -/
inductive ReleaseEffect where
  | serialHandlerTerminate
  | serialHandlerRelease
  | padHandlerTerminate
  | padHandlerRelease
  | serialTimerCancelTimeout
  | removeEventSource
  | serialTimerRelease
  | serialInPipeAbort
  | serialInPipeRelease
  | serialInBufferRelease
  | serialInClose
  | outPipeAbort
  | outPipeRelease
  | inPipeAbort
  | inPipeRelease
  | inBufferRelease
  | interfaceClose
  | deviceClose
  deriving DecidableEq

/-- Source `Xbox360Peripheral::SerialDisconnect` (lines 1072-1081). -/
def SerialDisconnect (o : DriverObjects) : DriverObjects × List ReleaseEffect :=
  if o.serialHandler then
    ({ o with serialHandler := false },
     [ReleaseEffect.serialHandlerTerminate, ReleaseEffect.serialHandlerRelease])
  else (o, [])

/-- Source `Xbox360Peripheral::PadDisconnect` (lines 1034-1042). -/
def PadDisconnect (o : DriverObjects) : DriverObjects × List ReleaseEffect :=
  if o.padHandler then
    ({ o with padHandler := false },
     [ReleaseEffect.padHandlerTerminate, ReleaseEffect.padHandlerRelease])
  else (o, [])

/-- Source `Xbox360Peripheral::ReleaseAll` (lines 645-696): the objects left and
the calls made, in program order. -/
def ReleaseAll (o : DriverObjects) : DriverObjects × List ReleaseEffect :=
  let (o, e1) := SerialDisconnect o
  let (o, e2) := PadDisconnect o
  let (o, e3) :=
    if o.serialTimer then
      ({ o with serialTimer := false },
       [ReleaseEffect.serialTimerCancelTimeout, ReleaseEffect.removeEventSource,
        ReleaseEffect.serialTimerRelease])
    else (o, [])
  let (o, e4) :=
    if o.serialInPipe then
      ({ o with serialInPipe := false },
       [ReleaseEffect.serialInPipeAbort, ReleaseEffect.serialInPipeRelease])
    else (o, [])
  let (o, e5) :=
    if o.serialInBuffer then
      ({ o with serialInBuffer := false }, [ReleaseEffect.serialInBufferRelease])
    else (o, [])
  let (o, e6) :=
    if o.serialIn then ({ o with serialIn := false }, [ReleaseEffect.serialInClose])
    else (o, [])
  let (o, e7) :=
    if o.outPipe then
      ({ o with outPipe := false }, [ReleaseEffect.outPipeAbort, ReleaseEffect.outPipeRelease])
    else (o, [])
  let (o, e8) :=
    if o.inPipe then
      ({ o with inPipe := false }, [ReleaseEffect.inPipeAbort, ReleaseEffect.inPipeRelease])
    else (o, [])
  let (o, e9) :=
    if o.inBuffer then ({ o with inBuffer := false }, [ReleaseEffect.inBufferRelease])
    else (o, [])
  let (o, e10) :=
    if o.interface then ({ o with interface := false }, [ReleaseEffect.interfaceClose])
    else (o, [])
  let (o, e11) :=
    if o.device then ({ o with device := false }, [ReleaseEffect.deviceClose])
    else (o, [])
  (o, e1 ++ e2 ++ e3 ++ e4 ++ e5 ++ e6 ++ e7 ++ e8 ++ e9 ++ e10 ++ e11)

/-- A driver on which `start` has created every object. -/
def fullyStarted : DriverObjects :=
  ⟨true, true, true, true, true, true, true, true, true, true, true⟩

/-- Whether `a` occurs in the sequence and every occurrence of `b` comes after
the first occurrence of `a`. -/
def precedes (a b : ReleaseEffect) (l : List ReleaseEffect) : Bool :=
  decide (a ∈ l) && decide (b ∉ l.take (l.indexOf a))

/-! ## Writes -/

/-- Calls made by `QueueWrite` and `WriteComplete`, in program order. -/
inductive WriteEffect where
  | allocateBuffer
  | logUnableToAllocate
  | writeBytes
  | outPipeWrite
  | logFailedToStart
  | logErrorWriting
  | releaseBuffer
  deriving DecidableEq

/-- Source `Xbox360Peripheral::QueueWrite` (lines 607-628): the value returned
and the calls made. `allocated` says whether `inTaskWithOptions` returned a
buffer, `writeResult` is what `outPipe->Write` returns. -/
def QueueWrite (allocated : Bool) (writeResult : IOReturn) : Bool × List WriteEffect :=
  if !allocated then
    (false, [WriteEffect.allocateBuffer, WriteEffect.logUnableToAllocate])
  else if writeResult = IOReturn.kIOReturnSuccess then
    (true, [WriteEffect.allocateBuffer, WriteEffect.writeBytes, WriteEffect.outPipeWrite])
  else
    (false, [WriteEffect.allocateBuffer, WriteEffect.writeBytes, WriteEffect.outPipeWrite,
      WriteEffect.logFailedToStart])

/-- Source `Xbox360Peripheral::WriteComplete` (lines 901-908). -/
def WriteComplete (status : IOReturn) : List WriteEffect :=
  (if status ≠ IOReturn.kIOReturnSuccess then [WriteEffect.logErrorWriting] else [])
    ++ [WriteEffect.releaseBuffer]

/-- The life of one write: `QueueWrite`, followed by `WriteComplete` with the
completion status when the transport accepted the write (a write the transport
refused has no completion). -/
def writeLifetime (allocated : Bool) (writeResult completionStatus : IOReturn) :
    List WriteEffect :=
  (QueueWrite allocated writeResult).2 ++
    (if allocated ∧ writeResult = IOReturn.kIOReturnSuccess
      then WriteComplete completionStatus else [])

/-! ## Start

`start` is written with forward `goto`s, and its last part has an `if` without
braces followed by `goto fail`. To keep every statement of the source in the
model, reachable or not, the function is embedded as a list of guarded
statements with labels, run by `exec`. The guard of a statement is the
conjunction of the conditions of the `if` blocks that enclose it in the source;
a statement that is not inside any `if` has the guard `always`. -/

/-- The labels of `start`. -/
inductive Label where
  | interfacefound
  | nochat
  | fail
  deriving DecidableEq

/-- The values of `controllerType` (the enumeration is declared in a header
outside the sources; these are the enumerators the source names). -/
inductive ControllerType where
  | Xbox360
  | XboxOriginal
  | XboxOne
  | XboxOnePretend360
  | Xbox360Pretend360
  deriving DecidableEq

/-- What the collaborators of `start` return. A lookup or allocation is `true`
when it returns a non-`NULL` object. -/
structure StartResults where
  /-- Result of `super::start(provider)` -/
  superStart : Bool
  /-- Whether `OSDynamicCast(IOUSBDevice,provider)` is non-`NULL` -/
  providerIsDevice : Bool
  /-- Result of `device->GetNumConfigurations()` -/
  numConfigurations : Nat
  /-- Whether `GetFullConfigurationDescriptor(0)` is non-`NULL` -/
  configDescriptor : Bool
  /-- Result of `device->open(this)` -/
  deviceOpen : Bool
  /-- Result of `device->SetConfiguration` -/
  setConfiguration : IOReturn
  /-- Result of `device->GetDeviceRelease()` -/
  deviceRelease : Nat
  /-- Interface lookup with subclass 93, protocol 1 (line 408) -/
  interface360 : Bool
  /-- Interface lookup with subclass 66, protocol 0 (line 415) -/
  interfaceOriginal : Bool
  /-- Interface lookup with class 255, subclass 71, protocol 208 (line 422) -/
  interfaceOne : Bool
  /-- Pipe lookup of line 446 -/
  inPipe : Bool
  /-- Pipe lookup of line 453 -/
  outPipe : Bool
  /-- Buffer allocation of line 460 -/
  inBuffer : Bool
  /-- Interface lookup of line 470 -/
  serialIn : Bool
  /-- Pipe lookup of line 481 -/
  serialInPipe : Bool
  /-- Buffer allocation of line 489 -/
  serialInBuffer : Bool
  /-- Timer creation of line 496 -/
  serialTimer : Bool
  /-- Whether `getWorkLoop()` is non-`NULL` -/
  workloop : Bool
  /-- Result of `workloop->addEventSource(serialTimer)` -/
  addEventSource : IOReturn
  /-- Result of the first `SendSwitch` of line 514 -/
  sendSwitch1 : Bool
  /-- Result of the second `SendSwitch` of line 514 -/
  sendSwitch2 : Bool
  /-- Result of `serialInPipe->Read` inside `QueueSerialRead` -/
  serialInPipeRead : IOReturn
  /-- Result of `inPipe->Read` inside `QueueRead` -/
  inPipeRead : IOReturn

/-- Statements of `start` as they appear in a run: the calls the claims speak
about by name, and every other statement (assignment, call or log line) by
its line in the source. -/
inductive StartEffect where
  | stmt (line : Nat)
  | queueSerialRead
  | queueRead
  | queueWrite (line : Nat)
  | padConnect
  | registerService
  | releaseAll
  deriving DecidableEq

/-- A statement of `start` with the condition under which it is executed. -/
inductive Stmt where
  | run (guard : StartResults → Bool) (e : StartEffect)
  | goto (guard : StartResults → Bool) (l : Label)
  | ret (guard : StartResults → Bool) (value : Bool)
  | label (l : Label)

/-- Guard of a statement outside every `if`. -/
def always : StartResults → Bool := fun _ => true

/-- Execution of a statement list. `skip = some l` means a `goto l` has been
taken and statements are passed over until the label `l`. Returns the value
returned (`none` if the list ends without `return`) and the statements run. -/
def exec (r : StartResults) : Option Label → List Stmt → Option Bool × List StartEffect
  | _, [] => (none, [])
  | some l, Stmt.label l' :: rest =>
    if l = l' then exec r none rest else exec r (some l) rest
  | some l, _ :: rest => exec r (some l) rest
  | none, Stmt.label _ :: rest => exec r none rest
  | none, Stmt.run guard e :: rest =>
    if guard r then ((exec r none rest).1, e :: (exec r none rest).2) else exec r none rest
  | none, Stmt.goto guard l :: rest =>
    if guard r then exec r (some l) rest else exec r none rest
  | none, Stmt.ret guard value :: rest =>
    if guard r then (some value, []) else exec r none rest

/-- The value of `controllerType` after the interface lookup (lines 403-433). -/
def controllerTypeFound (r : StartResults) : ControllerType :=
  if r.interface360 then ControllerType.Xbox360
  else if r.interfaceOriginal then ControllerType.XboxOriginal
  else ControllerType.XboxOne

/-- Lines 354-355 of `start`: the call of `super::start` and the early return. -/
def startHead : List Stmt :=
  [ Stmt.run always (StartEffect.stmt 354),
    Stmt.ret (fun r => !r.superStart) false ]

/-- Lines 357-433 of `start`: device, configuration, device release and the
lookup of the interface, up to the label `interfacefound`. -/
def startDevice : List Stmt :=
  [ Stmt.run always (StartEffect.stmt 357),
    Stmt.run (fun r => !r.providerIsDevice) (StartEffect.stmt 359),
    Stmt.goto (fun r => !r.providerIsDevice) Label.fail,
    Stmt.run always (StartEffect.stmt 363),
    Stmt.run (fun r => decide (r.numConfigurations < 1)) (StartEffect.stmt 364),
    Stmt.run (fun r => decide (r.numConfigurations < 1)) (StartEffect.stmt 365),
    Stmt.goto (fun r => decide (r.numConfigurations < 1)) Label.fail,
    Stmt.run always (StartEffect.stmt 369),
    Stmt.run (fun r => !r.configDescriptor) (StartEffect.stmt 371),
    Stmt.run (fun r => !r.configDescriptor) (StartEffect.stmt 372),
    Stmt.goto (fun r => !r.configDescriptor) Label.fail,
    Stmt.run always (StartEffect.stmt 376),
    Stmt.run (fun r => !r.deviceOpen) (StartEffect.stmt 377),
    Stmt.run (fun r => !r.deviceOpen) (StartEffect.stmt 378),
    Stmt.goto (fun r => !r.deviceOpen) Label.fail,
    Stmt.run always (StartEffect.stmt 381),
    Stmt.run (fun r => decide (r.setConfiguration ≠ IOReturn.kIOReturnSuccess)) (StartEffect.stmt 382),
    Stmt.goto (fun r => decide (r.setConfiguration ≠ IOReturn.kIOReturnSuccess)) Label.fail,
    Stmt.run always (StartEffect.stmt 387),
    Stmt.run (fun r => decide (r.deviceRelease ≠ 0x0110 ∧ r.deviceRelease ≠ 0x0114)) (StartEffect.stmt 390),
    Stmt.run (fun r => decide (r.deviceRelease ≠ 0x0114)) (StartEffect.stmt 393),
    Stmt.run (fun r => decide (r.deviceRelease ≠ 0x0114)) (StartEffect.stmt 394),
    Stmt.run (fun r => decide (r.deviceRelease = 0x0114)) (StartEffect.stmt 397),
    Stmt.run (fun r => decide (r.deviceRelease = 0x0114)) (StartEffect.stmt 398),
    Stmt.run always (StartEffect.stmt 403),
    Stmt.run always (StartEffect.stmt 404),
    Stmt.run always (StartEffect.stmt 405),
    Stmt.run always (StartEffect.stmt 406),
    Stmt.run always (StartEffect.stmt 407),
    Stmt.run always (StartEffect.stmt 408),
    Stmt.run (fun r => !r.interface360) (StartEffect.stmt 411),
    Stmt.run (fun r => !r.interface360) (StartEffect.stmt 412),
    Stmt.run (fun r => !r.interface360) (StartEffect.stmt 413),
    Stmt.run (fun r => !r.interface360) (StartEffect.stmt 414),
    Stmt.run (fun r => !r.interface360) (StartEffect.stmt 415),
    Stmt.run (fun r => !r.interface360 && !r.interfaceOriginal) (StartEffect.stmt 418),
    Stmt.run (fun r => !r.interface360 && !r.interfaceOriginal) (StartEffect.stmt 419),
    Stmt.run (fun r => !r.interface360 && !r.interfaceOriginal) (StartEffect.stmt 420),
    Stmt.run (fun r => !r.interface360 && !r.interfaceOriginal) (StartEffect.stmt 421),
    Stmt.run (fun r => !r.interface360 && !r.interfaceOriginal) (StartEffect.stmt 422),
    Stmt.run (fun r => !r.interface360 && !r.interfaceOriginal && !r.interfaceOne) (StartEffect.stmt 425),
    Stmt.goto (fun r => !r.interface360 && !r.interfaceOriginal && !r.interfaceOne) Label.fail,
    Stmt.run (fun r => !r.interface360 && !r.interfaceOriginal) (StartEffect.stmt 428),
    Stmt.goto (fun r => !r.interface360 && !r.interfaceOriginal) Label.interfacefound,
    Stmt.run (fun r => !r.interface360) (StartEffect.stmt 431),
    Stmt.goto (fun r => !r.interface360) Label.interfacefound ]

/-- Lines 434-531 of `start`: pipes and buffers, the accessory interface with
its timer, the handshake variables, `QueueSerialRead`, the label `nochat` and
the statement `if (!QueueRead()) IOLog(...)`, whose body is the log line only. -/
def startPipes : List Stmt :=
  [ Stmt.label Label.interfacefound,
    Stmt.run always (StartEffect.stmt 435),
    Stmt.run always (StartEffect.stmt 437),
    Stmt.run always (StartEffect.stmt 438),
    Stmt.run always (StartEffect.stmt 439),
    Stmt.run always (StartEffect.stmt 440),
    Stmt.run (fun r => decide (controllerTypeFound r = ControllerType.XboxOne)) (StartEffect.stmt 442),
    Stmt.run (fun r => decide (controllerTypeFound r ≠ ControllerType.XboxOne ∧
      controllerTypeFound r = ControllerType.XboxOriginal)) (StartEffect.stmt 444),
    Stmt.run always (StartEffect.stmt 446),
    Stmt.run (fun r => !r.inPipe) (StartEffect.stmt 448),
    Stmt.goto (fun r => !r.inPipe) Label.fail,
    Stmt.run always (StartEffect.stmt 451),
    Stmt.run always (StartEffect.stmt 452),
    Stmt.run always (StartEffect.stmt 453),
    Stmt.run (fun r => !r.outPipe) (StartEffect.stmt 455),
    Stmt.goto (fun r => !r.outPipe) Label.fail,
    Stmt.run always (StartEffect.stmt 458),
    Stmt.run always (StartEffect.stmt 460),
    Stmt.run (fun r => !r.inBuffer) (StartEffect.stmt 462),
    Stmt.goto (fun r => !r.inBuffer) Label.fail,
    Stmt.run always (StartEffect.stmt 466),
    Stmt.run always (StartEffect.stmt 467),
    Stmt.run always (StartEffect.stmt 468),
    Stmt.run always (StartEffect.stmt 469),
    Stmt.run always (StartEffect.stmt 470),
    Stmt.run (fun r => !r.serialIn) (StartEffect.stmt 472),
    Stmt.goto (fun r => !r.serialIn) Label.nochat,
    Stmt.run always (StartEffect.stmt 475),
    Stmt.run always (StartEffect.stmt 477),
    Stmt.run always (StartEffect.stmt 478),
    Stmt.run always (StartEffect.stmt 479),
    Stmt.run always (StartEffect.stmt 480),
    Stmt.run always (StartEffect.stmt 481),
    Stmt.run (fun r => !r.serialInPipe) (StartEffect.stmt 484),
    Stmt.goto (fun r => !r.serialInPipe) Label.fail,
    Stmt.run always (StartEffect.stmt 487),
    Stmt.run always (StartEffect.stmt 489),
    Stmt.run (fun r => !r.serialInBuffer) (StartEffect.stmt 492),
    Stmt.goto (fun r => !r.serialInBuffer) Label.fail,
    Stmt.run always (StartEffect.stmt 496),
    Stmt.run (fun r => !r.serialTimer) (StartEffect.stmt 499),
    Stmt.goto (fun r => !r.serialTimer) Label.fail,
    Stmt.run always (StartEffect.stmt 502),
    Stmt.run (fun r => r.workloop) (StartEffect.stmt 503),
    Stmt.run (fun r => !r.workloop || decide (r.addEventSource ≠ IOReturn.kIOReturnSuccess)) (StartEffect.stmt 505),
    Stmt.goto (fun r => !r.workloop || decide (r.addEventSource ≠ IOReturn.kIOReturnSuccess)) Label.fail,
    Stmt.run always (StartEffect.stmt 510),
    Stmt.run always (StartEffect.stmt 511),
    Stmt.run always (StartEffect.stmt 512),
    Stmt.run always (StartEffect.stmt 514),
    Stmt.run (fun r => r.sendSwitch1) (StartEffect.stmt 514),
    Stmt.run (fun r => r.sendSwitch1 && r.sendSwitch2) (StartEffect.stmt 514),
    Stmt.run always (StartEffect.stmt 519),
    Stmt.run always (StartEffect.stmt 520),
    Stmt.run always (StartEffect.stmt 521),
    Stmt.run always (StartEffect.stmt 522),
    Stmt.run always (StartEffect.stmt 523),
    Stmt.run always (StartEffect.stmt 524),
    Stmt.run always (StartEffect.queueSerialRead),
    Stmt.goto (fun r => !(QueueSerialRead true true r.serialInPipeRead).1) Label.fail,
    Stmt.label Label.nochat,
    Stmt.run always (StartEffect.stmt 529),
    Stmt.run always (StartEffect.queueRead),
    Stmt.run (fun r => !(QueueRead true true r.inPipeRead).1) (StartEffect.stmt 531) ]

/-- Lines 532-563 of `start`: the `goto fail` that follows the `if` without
braces, the initial writes, `PadConnect`, `registerService`, `return true`, and
the label `fail` with `ReleaseAll` and `return false`. -/
def startTail : List Stmt :=
  [ Stmt.goto always Label.fail,
    Stmt.run (fun r => decide (controllerTypeFound r = ControllerType.XboxOne ∨
      controllerTypeFound r = ControllerType.XboxOnePretend360)) (StartEffect.queueWrite 540),
    Stmt.run (fun r => decide (controllerTypeFound r = ControllerType.XboxOne ∨
      controllerTypeFound r = ControllerType.XboxOnePretend360)) (StartEffect.stmt 541),
    Stmt.run (fun r => decide (controllerTypeFound r = ControllerType.XboxOne ∨
      controllerTypeFound r = ControllerType.XboxOnePretend360)) (StartEffect.queueWrite 542),
    Stmt.run (fun r => decide (controllerTypeFound r = ControllerType.XboxOne ∨
      controllerTypeFound r = ControllerType.XboxOnePretend360)) (StartEffect.stmt 543),
    Stmt.run (fun r => decide (controllerTypeFound r = ControllerType.XboxOne ∨
      controllerTypeFound r = ControllerType.XboxOnePretend360)) (StartEffect.queueWrite 544),
    Stmt.run (fun r => decide (controllerTypeFound r = ControllerType.XboxOne ∨
      controllerTypeFound r = ControllerType.XboxOnePretend360)) (StartEffect.stmt 545),
    Stmt.run (fun r => decide (controllerTypeFound r = ControllerType.XboxOne ∨
      controllerTypeFound r = ControllerType.XboxOnePretend360)) (StartEffect.queueWrite 546),
    Stmt.run (fun r => decide (controllerTypeFound r = ControllerType.XboxOne ∨
      controllerTypeFound r = ControllerType.XboxOnePretend360)) (StartEffect.stmt 547),
    Stmt.run (fun r => !decide (controllerTypeFound r = ControllerType.XboxOne ∨
      controllerTypeFound r = ControllerType.XboxOnePretend360)) (StartEffect.stmt 550),
    Stmt.run (fun r => !decide (controllerTypeFound r = ControllerType.XboxOne ∨
      controllerTypeFound r = ControllerType.XboxOnePretend360)) (StartEffect.stmt 551),
    Stmt.run (fun r => !decide (controllerTypeFound r = ControllerType.XboxOne ∨
      controllerTypeFound r = ControllerType.XboxOnePretend360)) (StartEffect.queueWrite 552),
    Stmt.run always (StartEffect.stmt 556),
    Stmt.run always (StartEffect.padConnect),
    Stmt.run always (StartEffect.registerService),
    Stmt.ret always true,
    Stmt.label Label.fail,
    Stmt.run always (StartEffect.releaseAll),
    Stmt.ret always false ]

/-- Source `Xbox360Peripheral::start` (lines 346-563) as a statement list. -/
def startProgram : List Stmt :=
  startHead ++ (startDevice ++ startPipes) ++ startTail

/-- Source `Xbox360Peripheral::start`: the value returned and the statements
run, for given results of the collaborators. -/
def start (r : StartResults) : Option Bool × List StartEffect :=
  exec r none startProgram

/-- Statements that must not be run before the label `fail` is reached: the
initial writes, `PadConnect`, `registerService`, and `ReleaseAll` itself. -/
def afterStart : StartEffect → Bool
  | StartEffect.queueWrite _ => true
  | StartEffect.padConnect => true
  | StartEffect.registerService => true
  | StartEffect.releaseAll => true
  | _ => false

/-- Whether the label occurs in the statement list. -/
def hasLabel (l : Label) : List Stmt → Bool
  | [] => false
  | Stmt.label l' :: rest => decide (l = l') || hasLabel l rest
  | _ :: rest => hasLabel l rest

/-- A statement list that can be passed only by running statements outside
`afterStart`, without `return`, and whose `goto`s lead to a label further on
in the list or to `fail`. -/
def safePrefix : List Stmt → Bool
  | [] => true
  | Stmt.run _ e :: rest => !afterStart e && safePrefix rest
  | Stmt.goto _ l :: rest => (decide (l = Label.fail) || hasLabel l rest) && safePrefix rest
  | Stmt.ret _ _ :: _ => false
  | Stmt.label _ :: rest => safePrefix rest

/-- The outcome of a run that ends at the label `fail`: `false` is returned,
`ReleaseAll` is the last statement run, and nothing of `afterStart` was run
before it. -/
def endsAtFail (o : Option Bool × List StartEffect) : Prop :=
  o.1 = some false ∧
  ∃ pre, o.2 = pre ++ [StartEffect.releaseAll] ∧ ∀ e ∈ pre, afterStart e = false

/-! ## Handshake: initial state and event sequences -/

/-- The handshake variables as `start` sets them (lines 518-523): nothing heard,
inactive, toggle parity false, retry counter 0, state Toggling. -/
def initialSerialState : SerialState :=
  { serialTimerState := TimerState.tsToggle
    serialToggle := false
    serialActive := false
    serialHeard := false
    serialResetCount := 0 }

/-- The connect and disconnect calls among the effects, in order. -/
def eventsOf (effs : List TimerEffect) : List TimerEffect :=
  effs.filter fun e =>
    match e with
    | TimerEffect.serialConnect => true
    | TimerEffect.serialDisconnect => true
    | _ => false

/-- A sequence of connect and disconnect events alternates when read from an
accessory that is connected (`active = true`) or not: a connect is only allowed
while not connected, a disconnect only while connected. -/
def alternatesFrom (active : Bool) (events : List TimerEffect) : Bool :=
  match events with
  | [] => true
  | TimerEffect.serialConnect :: rest => !active && alternatesFrom true rest
  | TimerEffect.serialDisconnect :: rest => active && alternatesFrom false rest
  | _ :: _ => false

/-- The invariant of the handshake variables: an active accessory is in
Toggling, the retry counter is at most 4, and at most 3 outside Toggling. -/
def handshakeInv (s : SerialState) : Prop :=
  (s.serialActive = true → s.serialTimerState = TimerState.tsToggle) ∧
  s.serialResetCount ≤ 4 ∧
  (s.serialTimerState ≠ TimerState.tsToggle → s.serialResetCount ≤ 3)

/-! ### Helper lemmas for the axis normalizer -/

theorem compl_eq (x : Int) : ~~~x = -x - 1 := by
  cases x with
  | ofNat n =>
    show Int.not (Int.ofNat n) = _
    simp only [Int.not, Int.negSucc_eq, Int.ofNat_eq_coe]; omega
  | negSucc n =>
    show Int.not (Int.negSucc n) = _
    simp only [Int.not, Int.negSucc_eq, Int.ofNat_eq_coe]; omega

theorem toSInt16_of_range {v : Int} (h : isSInt16 v) : toSInt16 v = v := by
  unfold isSInt16 at h
  unfold toSInt16
  omega

theorem getAbsolute_eq {s : Int} (h : isSInt16 s) :
    getAbsolute s = if s < 0 then ~~~s else s := by
  unfold getAbsolute
  by_cases hneg : s < 0
  · simp only [hneg, if_true]
    apply toSInt16_of_range
    unfold isSInt16 at *
    rw [compl_eq]; omega
  · simp only [hneg, if_false]

theorem getAbsolute_range {s : Int} (h : isSInt16 s) :
    0 ≤ getAbsolute s ∧ getAbsolute s ≤ 32767 := by
  rw [getAbsolute_eq h]
  unfold isSInt16 at h
  split
  · rw [compl_eq]; omega
  · omega

/-- The quotient formed on exact rationals and then truncated is the integer
quotient of numerator and denominator. -/
theorem truncToInt_scaled {m d : Int} (hm : d < m) (hd : d < 32767) :
    truncToInt ((32767 : ℚ) * ((m : ℚ) - (d : ℚ)) / (((32767 : Int) - d : Int) : ℚ))
      = 32767 * (m - d) / (32767 - d) := by
  have hpos : (0 : ℚ) ≤
      (32767 : ℚ) * ((m : ℚ) - (d : ℚ)) / (((32767 : Int) - d : Int) : ℚ) := by
    apply div_nonneg
    · apply mul_nonneg (by norm_num)
      have : (d : ℚ) < (m : ℚ) := by exact_mod_cast hm
      linarith
    · have : (0 : Int) ≤ 32767 - d := by omega
      exact_mod_cast this
  unfold truncToInt
  rw [if_pos hpos]
  obtain ⟨k, hk⟩ : ∃ k : ℕ, (k : Int) = 32767 - d := ⟨(32767 - d).toNat, by omega⟩
  have h1 : (32767 : ℚ) * ((m : ℚ) - (d : ℚ)) = ((32767 * (m - d) : Int) : ℚ) := by
    push_cast; ring
  rw [h1, ← hk, Int.cast_natCast]
  exact Rat.floor_intCast_div_natCast _ _

/-! ### Rounding to binary32 -/

theorem roundHalfEven_cases (q : ℚ) :
    (roundHalfEven q = ⌊q⌋ ∧ q - ⌊q⌋ ≤ 1 / 2 ∧ (q - ⌊q⌋ = 1 / 2 → ⌊q⌋ % 2 = 0)) ∨
    (roundHalfEven q = ⌊q⌋ + 1 ∧ 1 / 2 ≤ q - ⌊q⌋ ∧ (q - ⌊q⌋ = 1 / 2 → ⌊q⌋ % 2 ≠ 0)) := by
  unfold roundHalfEven
  by_cases h1 : q - ⌊q⌋ < 1 / 2
  · left
    rw [if_pos h1]
    exact ⟨rfl, le_of_lt h1, fun h => absurd h (ne_of_lt h1)⟩
  · rw [if_neg h1]
    by_cases h2 : 1 / 2 < q - ⌊q⌋
    · right
      rw [if_pos h2]
      exact ⟨rfl, le_of_lt h2, fun h => absurd h.symm (ne_of_lt h2)⟩
    · rw [if_neg h2]
      have heq : q - ⌊q⌋ = 1 / 2 := le_antisymm (not_lt.mp h2) (not_lt.mp h1)
      by_cases h3 : ⌊q⌋ % 2 = 0
      · left
        rw [if_pos h3]
        exact ⟨rfl, le_of_eq heq, fun _ => h3⟩
      · right
        rw [if_neg h3]
        exact ⟨rfl, le_of_eq heq.symm, fun _ => h3⟩

theorem roundHalfEven_sub_le (q : ℚ) : q - 1 / 2 ≤ (roundHalfEven q : ℚ) := by
  have hf := Int.floor_le q
  have hl := Int.lt_floor_add_one q
  rcases roundHalfEven_cases q with ⟨h, h1, _⟩ | ⟨h, h1, _⟩
  · rw [h]; linarith
  · rw [h]; push_cast; linarith

theorem roundHalfEven_le_add (q : ℚ) : (roundHalfEven q : ℚ) ≤ q + 1 / 2 := by
  have hf := Int.floor_le q
  have hl := Int.lt_floor_add_one q
  rcases roundHalfEven_cases q with ⟨h, h1, _⟩ | ⟨h, h1, _⟩
  · rw [h]; linarith
  · rw [h]; push_cast; linarith

theorem roundHalfEven_mono {a b : ℚ} (hab : a ≤ b) : roundHalfEven a ≤ roundHalfEven b := by
  have hfl : ⌊a⌋ ≤ ⌊b⌋ := Int.floor_mono hab
  rcases roundHalfEven_cases a with ⟨ha, ha1, ha2⟩ | ⟨ha, ha1, ha2⟩ <;>
    rcases roundHalfEven_cases b with ⟨hb, hb1, hb2⟩ | ⟨hb, hb1, hb2⟩ <;> rw [ha, hb]
  · exact hfl
  · omega
  · -- round a = ⌊a⌋ + 1, round b = ⌊b⌋
    by_contra hlt
    have hfe : ⌊a⌋ = ⌊b⌋ := by omega
    rw [hfe] at ha1 ha2
    have hbe : b - ⌊b⌋ = 1 / 2 := by
      apply le_antisymm hb1
      linarith
    have hae : a - ⌊b⌋ = 1 / 2 := by
      apply le_antisymm _ ha1
      linarith
    exact ha2 hae (hb2 hbe)
  · omega

theorem roundHalfEven_intCast (n : Int) : roundHalfEven (n : ℚ) = n := by
  unfold roundHalfEven
  simp

theorem roundHalfEven_eq_of_near (q : ℚ) (n : Int) (h1 : (n : ℚ) - 1 / 2 < q)
    (h2 : q < (n : ℚ) + 1 / 2) : roundHalfEven q = n := by
  have hlo := roundHalfEven_sub_le q
  have hhi := roundHalfEven_le_add q
  have a1 : ((roundHalfEven q : Int) : ℚ) < (n : ℚ) + 1 := by linarith
  have a2 : (n : ℚ) - 1 < ((roundHalfEven q : Int) : ℚ) := by linarith
  have b1 : roundHalfEven q < n + 1 := by exact_mod_cast a1
  have b2 : n - 1 < roundHalfEven q := by exact_mod_cast a2
  omega

theorem roundHalfEven_tie_even (n : Int) (hn : n % 2 = 0) :
    roundHalfEven ((n : ℚ) + 1 / 2) = n := by
  have hfl : ⌊(n : ℚ) + 1 / 2⌋ = n := by
    rw [Int.floor_eq_iff]
    constructor <;> linarith
  rcases roundHalfEven_cases ((n : ℚ) + 1 / 2) with ⟨h, _, _⟩ | ⟨h, _, h3⟩
  · rw [h, hfl]
  · rw [hfl] at h3
    exact absurd hn (h3 (by ring))

theorem two_zpow_pos (e : Int) : (0 : ℚ) < (2 : ℚ) ^ e := zpow_pos (by norm_num) e

theorem binExp_bounds {q : ℚ} (hq : 0 < q) :
    (2 : ℚ) ^ Int.log 2 q ≤ q ∧ q < (2 : ℚ) ^ (Int.log 2 q + 1) := by
  have h1 := @Int.zpow_log_le_self ℚ _ _ 2 q (by norm_num) hq
  have h2 := @Int.lt_zpow_succ_log_self ℚ _ _ 2 (by norm_num) q
  simp only [Nat.cast_ofNat] at h1 h2
  exact ⟨h1, h2⟩

theorem log_eq_of_bounds {q : ℚ} (hq : 0 < q) (e : Int) (h1 : (2 : ℚ) ^ e ≤ q)
    (h2 : q < (2 : ℚ) ^ (e + 1)) : Int.log 2 q = e := by
  have a1 := (@Int.zpow_le_iff_le_log ℚ _ _ 2 (by norm_num) e q hq).mp
    (by simpa only [Nat.cast_ofNat] using h1)
  have a2 := (@Int.lt_zpow_iff_log_lt ℚ _ _ 2 (by norm_num) (e + 1) q hq).mp
    (by simpa only [Nat.cast_ofNat] using h2)
  omega

theorem roundBinary32_of_exp {q : ℚ} (hq : 0 < q) (e : Int) (h1 : (2 : ℚ) ^ e ≤ q)
    (h2 : q < (2 : ℚ) ^ (e + 1)) :
    roundBinary32 q = (roundHalfEven (q / (2 : ℚ) ^ (e - 23)) : ℚ) * (2 : ℚ) ^ (e - 23) := by
  unfold roundBinary32
  rw [if_neg (ne_of_gt hq), abs_of_pos hq, log_eq_of_bounds hq e h1 h2]

theorem roundBinary32_pos {q : ℚ} (hq : 0 < q) :
    roundBinary32 q = (roundHalfEven (q / (2 : ℚ) ^ (Int.log 2 q - 23)) : ℚ) *
      (2 : ℚ) ^ (Int.log 2 q - 23) :=
  roundBinary32_of_exp hq _ (binExp_bounds hq).1 (binExp_bounds hq).2

theorem two_zpow_split (e : Int) : (2 : ℚ) ^ e = (2 : ℚ) ^ (23 : ℕ) * (2 : ℚ) ^ (e - 23) := by
  rw [← zpow_natCast, ← zpow_add₀ (by norm_num : (2 : ℚ) ≠ 0)]
  congr 1
  push_cast
  ring

theorem roundBinary32_bounds {q : ℚ} (hq : 0 < q) (e : Int) (h1 : (2 : ℚ) ^ e ≤ q)
    (h2 : q < (2 : ℚ) ^ (e + 1)) :
    (2 : ℚ) ^ e ≤ roundBinary32 q ∧ roundBinary32 q ≤ (2 : ℚ) ^ (e + 1) := by
  have hu := two_zpow_pos (e - 23)
  rw [roundBinary32_of_exp hq e h1 h2]
  have hlo : ((2 ^ 23 : Int) : ℚ) ≤ q / (2 : ℚ) ^ (e - 23) := by
    rw [le_div_iff₀ hu]
    have := two_zpow_split e
    push_cast
    linarith
  have hhi : q / (2 : ℚ) ^ (e - 23) ≤ ((2 ^ 24 : Int) : ℚ) := by
    rw [div_le_iff₀ hu]
    have := two_zpow_split (e + 1)
    have h3 : (2 : ℚ) ^ (e + 1 - 23) = 2 * (2 : ℚ) ^ (e - 23) := by
      have : e + 1 - 23 = 1 + (e - 23) := by ring
      rw [this, zpow_add₀ (by norm_num : (2 : ℚ) ≠ 0)]
      norm_num
    push_cast
    nlinarith
  have r1 := roundHalfEven_mono hlo
  have r2 := roundHalfEven_mono hhi
  rw [roundHalfEven_intCast] at r1 r2
  have c1 : ((2 ^ 23 : Int) : ℚ) ≤ (roundHalfEven (q / (2 : ℚ) ^ (e - 23)) : ℚ) := by
    exact_mod_cast r1
  have c2 : (roundHalfEven (q / (2 : ℚ) ^ (e - 23)) : ℚ) ≤ ((2 ^ 24 : Int) : ℚ) := by
    exact_mod_cast r2
  constructor
  · rw [two_zpow_split e]
    push_cast at c1
    exact mul_le_mul_of_nonneg_right c1 (le_of_lt hu)
  · have h3 : (2 : ℚ) ^ (e + 1) = (2 : ℚ) ^ (24 : ℕ) * (2 : ℚ) ^ (e - 23) := by
      rw [← zpow_natCast, ← zpow_add₀ (by norm_num : (2 : ℚ) ≠ 0)]
      congr 1
      push_cast
      ring
    rw [h3]
    push_cast at c2
    exact mul_le_mul_of_nonneg_right c2 (le_of_lt hu)

theorem roundBinary32_error {q : ℚ} (hq : 0 < q) :
    |roundBinary32 q - q| ≤ q / 2 ^ 24 := by
  obtain ⟨h1, h2⟩ := binExp_bounds hq
  have hu := two_zpow_pos (Int.log 2 q - 23)
  rw [roundBinary32_pos hq]
  have hlo := roundHalfEven_sub_le (q / (2 : ℚ) ^ (Int.log 2 q - 23))
  have hhi := roundHalfEven_le_add (q / (2 : ℚ) ^ (Int.log 2 q - 23))
  have hsplit := two_zpow_split (Int.log 2 q)
  have hq' : q = q / (2 : ℚ) ^ (Int.log 2 q - 23) * (2 : ℚ) ^ (Int.log 2 q - 23) := by
    field_simp
  have hbound : (2 : ℚ) ^ (Int.log 2 q - 23) / 2 ≤ q / 2 ^ 24 := by
    rw [div_le_div_iff₀ (by norm_num) (by norm_num)]
    nlinarith
  rw [abs_le]
  constructor
  · nlinarith
  · nlinarith

theorem roundBinary32_natCast_of_lt (n : Int) (hn : 0 < n) (hlt : n < 2 ^ 24) :
    roundBinary32 (n : ℚ) = (n : ℚ) := by
  have hq : (0 : ℚ) < (n : ℚ) := by exact_mod_cast hn
  obtain ⟨h1, h2⟩ := binExp_bounds hq
  have hlt' : (n : ℚ) < (2 : ℚ) ^ (24 : Int) := by
    have : ((n : Int) : ℚ) < ((2 ^ 24 : Int) : ℚ) := by exact_mod_cast hlt
    rw [zpow_ofNat]
    push_cast at this
    exact this
  have he : Int.log 2 (n : ℚ) < 24 :=
    (@Int.lt_zpow_iff_log_lt ℚ _ _ 2 (by norm_num) 24 (n : ℚ) hq).mp
      (by simpa only [Nat.cast_ofNat] using hlt')
  obtain ⟨k, hk⟩ : ∃ k : ℕ, (k : Int) = 23 - Int.log 2 (n : ℚ) :=
    ⟨(23 - Int.log 2 (n : ℚ)).toNat, by omega⟩
  have hu := two_zpow_pos (Int.log 2 (n : ℚ) - 23)
  have hinv : (2 : ℚ) ^ (Int.log 2 (n : ℚ) - 23) * (2 : ℚ) ^ k = 1 := by
    rw [← zpow_natCast, ← zpow_add₀ (by norm_num : (2 : ℚ) ≠ 0), hk]
    have : Int.log 2 (n : ℚ) - 23 + (23 - Int.log 2 (n : ℚ)) = 0 := by ring
    rw [this, zpow_zero]
  have ht : (n : ℚ) / (2 : ℚ) ^ (Int.log 2 (n : ℚ) - 23) = ((n * 2 ^ k : Int) : ℚ) := by
    rw [div_eq_iff (ne_of_gt hu)]
    push_cast
    rw [mul_assoc, mul_comm ((2 : ℚ) ^ k), hinv, mul_one]
  rw [roundBinary32_pos hq, ht, roundHalfEven_intCast]
  push_cast
  rw [mul_assoc, mul_comm ((2 : ℚ) ^ k), hinv, mul_one]

theorem roundBinary32_mono {a b : ℚ} (ha : 0 < a) (hab : a ≤ b) :
    roundBinary32 a ≤ roundBinary32 b := by
  have hb : 0 < b := lt_of_lt_of_le ha hab
  obtain ⟨a1, a2⟩ := binExp_bounds ha
  obtain ⟨b1, b2⟩ := binExp_bounds hb
  have hlog := @Int.log_mono_right ℚ _ _ 2 a b ha hab
  rcases eq_or_lt_of_le hlog with heq | hlt
  · rw [roundBinary32_pos ha, roundBinary32_pos hb, heq]
    have hu := two_zpow_pos (Int.log 2 b - 23)
    have hdiv : a / (2 : ℚ) ^ (Int.log 2 b - 23) ≤ b / (2 : ℚ) ^ (Int.log 2 b - 23) :=
      div_le_div_of_nonneg_right hab (le_of_lt hu)
    have hr := roundHalfEven_mono hdiv
    have hr' : (roundHalfEven (a / (2 : ℚ) ^ (Int.log 2 b - 23)) : ℚ) ≤
        (roundHalfEven (b / (2 : ℚ) ^ (Int.log 2 b - 23)) : ℚ) := by exact_mod_cast hr
    exact mul_le_mul_of_nonneg_right hr' (le_of_lt hu)
  · have ua := (roundBinary32_bounds ha _ a1 a2).2
    have lb := (roundBinary32_bounds hb _ b1 b2).1
    have hpow : (2 : ℚ) ^ (Int.log 2 a + 1) ≤ (2 : ℚ) ^ Int.log 2 b :=
      zpow_le_zpow_right₀ (by norm_num) (by omega)
    linarith

theorem roundBinary32_ge_of_int_le (n : Int) (hn : 0 < n) (hlt : n < 2 ^ 24) {q : ℚ}
    (h : (n : ℚ) ≤ q) : (n : ℚ) ≤ roundBinary32 q := by
  have hq : (0 : ℚ) < (n : ℚ) := by exact_mod_cast hn
  have := roundBinary32_mono hq h
  rw [roundBinary32_natCast_of_lt n hn hlt] at this
  exact this

theorem roundBinary32_pos_of_pos {q : ℚ} (hq : 0 < q) : 0 < roundBinary32 q := by
  obtain ⟨h1, h2⟩ := binExp_bounds hq
  exact lt_of_lt_of_le (two_zpow_pos _) (roundBinary32_bounds hq _ h1 h2).1

/-- The binary32 quotient for integers `1 ≤ x ≤ k ≤ 32767`: it is at least 1 and
within 1/128 of the exact quotient. -/
theorem rescale_analysis (x k : Int) (hx : 1 ≤ x) (hxk : x ≤ k) (hk : k ≤ 32767) :
    1 ≤ roundBinary32 (roundBinary32 ((32767 : ℚ) * (x : ℚ)) / (k : ℚ)) ∧
    |roundBinary32 (roundBinary32 ((32767 : ℚ) * (x : ℚ)) / (k : ℚ)) -
      (32767 : ℚ) * (x : ℚ) / (k : ℚ)| < 1 / 128 := by
  have hxq : (1 : ℚ) ≤ (x : ℚ) := by exact_mod_cast hx
  have hxkq : (x : ℚ) ≤ (k : ℚ) := by exact_mod_cast hxk
  have hkq : (k : ℚ) ≤ 32767 := by exact_mod_cast hk
  have hk0 : (0 : ℚ) < (k : ℚ) := by linarith
  have hP0 : (0 : ℚ) < (32767 : ℚ) * (x : ℚ) := by nlinarith
  have hkP : (k : ℚ) ≤ (32767 : ℚ) * (x : ℚ) := by nlinarith
  have hk24 : k < 2 ^ 24 := by omega
  have hP' := roundBinary32_ge_of_int_le k (by omega) hk24 hkP
  have hPerr := roundBinary32_error hP0
  have hQ1 : (1 : ℚ) ≤ roundBinary32 ((32767 : ℚ) * (x : ℚ)) / (k : ℚ) := by
    rw [le_div_iff₀ hk0]; linarith
  have hQ0 : (0 : ℚ) < roundBinary32 ((32767 : ℚ) * (x : ℚ)) / (k : ℚ) := by linarith
  have hQ' := roundBinary32_ge_of_int_le 1 (by norm_num) (by norm_num)
    (by simpa using hQ1 : ((1 : Int) : ℚ) ≤ roundBinary32 ((32767 : ℚ) * (x : ℚ)) / (k : ℚ))
  have hQerr := roundBinary32_error hQ0
  refine ⟨by simpa using hQ', ?_⟩
  have hE : (32767 : ℚ) * (x : ℚ) / (k : ℚ) ≤ 32767 := by
    rw [div_le_iff₀ hk0]; nlinarith
  have hE0 : (0 : ℚ) ≤ (32767 : ℚ) * (x : ℚ) / (k : ℚ) := le_of_lt (div_pos hP0 hk0)
  -- |Q - E| ≤ E / 2^24
  have hQE : |roundBinary32 ((32767 : ℚ) * (x : ℚ)) / (k : ℚ) -
      (32767 : ℚ) * (x : ℚ) / (k : ℚ)| ≤ (32767 : ℚ) * (x : ℚ) / (k : ℚ) / 2 ^ 24 := by
    rw [← sub_div, abs_div, abs_of_pos hk0, div_right_comm]
    exact div_le_div_of_nonneg_right hPerr (le_of_lt hk0)
  rw [abs_le] at hQE hQerr
  rw [abs_lt]
  constructor
  · nlinarith [hQE.1, hQE.2, hQerr.1, hQerr.2]
  · nlinarith [hQE.1, hQE.2, hQerr.1, hQerr.2]

theorem truncToInt_of_nonneg {q : ℚ} (h : 0 ≤ q) : truncToInt q = ⌊q⌋ := by
  unfold truncToInt
  rw [if_pos h]

theorem rescaleExpr_cast (m d : Int) :
    rescaleExpr (m : ℚ) (d : ℚ) (((32767 : Int) - d : Int) : ℚ) =
      roundBinary32 (roundBinary32 ((32767 : ℚ) * ((m - d : Int) : ℚ)) /
        ((32767 - d : Int) : ℚ)) := by
  unfold rescaleExpr
  push_cast
  rfl

theorem specRescale_cast (m d : Int) :
    specRescale m d =
      truncToInt ((32767 : ℚ) * ((m - d : Int) : ℚ) / ((32767 - d : Int) : ℚ)) := by
  unfold specRescale
  push_cast
  rfl

theorem floatRescale_facts (m d : Int) (hd0 : 0 ≤ d) (hm : d < m) (hm2 : m ≤ 32767) :
    1 ≤ floatRescale m d ∧ floatRescale m d ≤ 32767 ∧
    specRescale m d - 1 ≤ floatRescale m d ∧ floatRescale m d ≤ specRescale m d + 1 := by
  obtain ⟨h1, h2⟩ := rescale_analysis (m - d) (32767 - d) (by omega) (by omega) (by omega)
  have hk0 : (0 : ℚ) < ((32767 - d : Int) : ℚ) := by
    have : (0 : Int) < 32767 - d := by omega
    exact_mod_cast this
  have hx0 : (0 : ℚ) < ((m - d : Int) : ℚ) := by
    have : (0 : Int) < m - d := by omega
    exact_mod_cast this
  have hxk : ((m - d : Int) : ℚ) ≤ ((32767 - d : Int) : ℚ) := by
    have : m - d ≤ 32767 - d := by omega
    exact_mod_cast this
  have hE0 : (0 : ℚ) ≤ (32767 : ℚ) * ((m - d : Int) : ℚ) / ((32767 - d : Int) : ℚ) :=
    le_of_lt (div_pos (by nlinarith) hk0)
  have hE : (32767 : ℚ) * ((m - d : Int) : ℚ) / ((32767 - d : Int) : ℚ) ≤ 32767 := by
    rw [div_le_iff₀ hk0]; nlinarith
  unfold floatRescale
  rw [rescaleExpr_cast, specRescale_cast, truncToInt_of_nonneg (by linarith),
    truncToInt_of_nonneg hE0]
  rw [abs_lt] at h2
  generalize roundBinary32 (roundBinary32 ((32767 : ℚ) * ((m - d : Int) : ℚ)) /
        ((32767 - d : Int) : ℚ)) = R at h1 h2 ⊢
  generalize (32767 : ℚ) * ((m - d : Int) : ℚ) / ((32767 - d : Int) : ℚ) = E at h2 hE0 hE ⊢
  have hfE := Int.floor_le E
  have hfE2 := Int.lt_floor_add_one E
  refine ⟨?_, ?_, ?_, ?_⟩
  · exact Int.le_floor.mpr (by simpa using h1)
  · have : ⌊R⌋ < 32768 := by
      rw [Int.floor_lt]
      push_cast
      linarith
    omega
  · rw [Int.le_floor]
    push_cast
    linarith
  · have : ⌊R⌋ < ⌊E⌋ + 2 := by
      rw [Int.floor_lt]
      push_cast
      linarith
    omega

theorem floatRescale_mono (m1 m2 d : Int) (h1 : d < m1) (h12 : m1 ≤ m2)
    (h2 : m2 ≤ 32767) : floatRescale m1 d ≤ floatRescale m2 d := by
  have hk0 : (0 : ℚ) < ((32767 - d : Int) : ℚ) := by
    have : (0 : Int) < 32767 - d := by omega
    exact_mod_cast this
  have hx1 : (0 : ℚ) < ((m1 - d : Int) : ℚ) := by
    have : (0 : Int) < m1 - d := by omega
    exact_mod_cast this
  have hx12 : ((m1 - d : Int) : ℚ) ≤ ((m2 - d : Int) : ℚ) := by
    have : m1 - d ≤ m2 - d := by omega
    exact_mod_cast this
  have hP : roundBinary32 ((32767 : ℚ) * ((m1 - d : Int) : ℚ)) ≤
      roundBinary32 ((32767 : ℚ) * ((m2 - d : Int) : ℚ)) :=
    roundBinary32_mono (by nlinarith) (by nlinarith)
  have hP0 : 0 < roundBinary32 ((32767 : ℚ) * ((m1 - d : Int) : ℚ)) :=
    roundBinary32_pos_of_pos (by nlinarith)
  have hQ : roundBinary32 (roundBinary32 ((32767 : ℚ) * ((m1 - d : Int) : ℚ)) /
        ((32767 - d : Int) : ℚ)) ≤
      roundBinary32 (roundBinary32 ((32767 : ℚ) * ((m2 - d : Int) : ℚ)) /
        ((32767 - d : Int) : ℚ)) :=
    roundBinary32_mono (div_pos hP0 hk0) (div_le_div_of_nonneg_right hP (le_of_lt hk0))
  have hQ0 : 0 < roundBinary32 (roundBinary32 ((32767 : ℚ) * ((m1 - d : Int) : ℚ)) /
        ((32767 - d : Int) : ℚ)) := roundBinary32_pos_of_pos (div_pos hP0 hk0)
  unfold floatRescale
  rw [rescaleExpr_cast, rescaleExpr_cast, truncToInt_of_nonneg (le_of_lt hQ0),
    truncToInt_of_nonneg (le_trans (le_of_lt hQ0) hQ)]
  exact Int.floor_mono hQ

theorem roundBinary32_eval {q : ℚ} (e n : Int) (hq : 0 < q) (h1 : (2 : ℚ) ^ e ≤ q)
    (h2 : q < (2 : ℚ) ^ (e + 1)) (h3 : (n : ℚ) - 1 / 2 < q / (2 : ℚ) ^ (e - 23))
    (h4 : q / (2 : ℚ) ^ (e - 23) < (n : ℚ) + 1 / 2) :
    roundBinary32 q = (n : ℚ) * (2 : ℚ) ^ (e - 23) := by
  rw [roundBinary32_of_exp hq e h1 h2, roundHalfEven_eq_of_near _ n h3 h4]

theorem roundBinary32_eval_tie {q : ℚ} (e n : Int) (hq : 0 < q) (h1 : (2 : ℚ) ^ e ≤ q)
    (h2 : q < (2 : ℚ) ^ (e + 1)) (hn : n % 2 = 0)
    (h3 : q / (2 : ℚ) ^ (e - 23) = (n : ℚ) + 1 / 2) :
    roundBinary32 q = (n : ℚ) * (2 : ℚ) ^ (e - 23) := by
  rw [roundBinary32_of_exp hq e h1 h2, h3, roundHalfEven_tie_even n hn]

theorem rescaleExpr_5000_100 : rescaleExpr 5000 100 32667 = 4915 := by
  have hP : roundBinary32 ((32767 : ℚ) * (5000 - 100)) = 160558304 := by
    have h : (32767 : ℚ) * (5000 - 100) = 160558300 := by norm_num
    rw [h, roundBinary32_eval 27 10034894 (by norm_num) (by norm_num) (by norm_num)
      (by norm_num) (by norm_num)]
    norm_num
  have hQ : roundBinary32 ((160558304 : ℚ) / 32667) = 4915 := by
    rw [roundBinary32_eval 12 10065920 (by norm_num) (by norm_num) (by norm_num)
      (by norm_num) (by norm_num)]
    norm_num
  unfold rescaleExpr
  rw [hP, hQ]

theorem rescaleExpr_515_0 : rescaleExpr 515 0 32767 = 8437759 / 16384 := by
  have hP : roundBinary32 ((32767 : ℚ) * (515 - 0)) = 16875004 := by
    have h : (32767 : ℚ) * (515 - 0) = 16875005 := by norm_num
    rw [h, roundBinary32_eval_tie 24 8437502 (by norm_num) (by norm_num) (by norm_num)
      (by norm_num) (by norm_num)]
    norm_num
  have hQ : roundBinary32 ((16875004 : ℚ) / 32767) = 8437759 / 16384 := by
    rw [roundBinary32_eval 9 8437759 (by norm_num) (by norm_num) (by norm_num)
      (by norm_num) (by norm_num)]
    norm_num
  unfold rescaleExpr
  rw [hP, hQ]

theorem rescaleExpr_32767_0 : rescaleExpr 32767 0 32767 = 32767 := by
  have hP : roundBinary32 ((32767 : ℚ) * (32767 - 0)) = 1073676288 := by
    have h : (32767 : ℚ) * (32767 - 0) = 1073676289 := by norm_num
    rw [h, roundBinary32_eval 29 16776192 (by norm_num) (by norm_num) (by norm_num)
      (by norm_num) (by norm_num)]
    norm_num
  have hQ : roundBinary32 ((1073676288 : ℚ) / 32767) = 32767 := by
    rw [roundBinary32_eval 14 16776704 (by norm_num) (by norm_num) (by norm_num)
      (by norm_num) (by norm_num)]
    norm_num
  unfold rescaleExpr
  rw [hP, hQ]

/-- The exact truncated quotient of the specification as an integer quotient. -/
theorem specRescale_eq_div {m d : Int} (hm : d < m) (hd : d < 32767) :
    specRescale m d = 32767 * (m - d) / (32767 - d) := by
  rw [← truncToInt_scaled hm hd]
  unfold specRescale
  push_cast
  rfl

/-- Output of `normalizeAxis` above the dead-zone. -/
theorem normalizeAxis_above {s d : Int} (hs : isSInt16 s) (hd0 : 0 ≤ d)
    (hm : d < getAbsolute s) :
    normalizeAxis s d =
      if s < 0 then ~~~(floatRescale (getAbsolute s) d) else floatRescale (getAbsolute s) d := by
  have hr := getAbsolute_range hs
  have hb := floatRescale_facts (getAbsolute s) d hd0 hm hr.2
  have hcur : ((getAbsolute s : Int) : ℚ) > (d : ℚ) := by exact_mod_cast hm
  have hq : isSInt16 (floatRescale (getAbsolute s) d) := by
    unfold isSInt16; omega
  have hfold : truncToInt (rescaleExpr ((getAbsolute s : Int) : ℚ) (d : ℚ)
      (((32767 : Int) - d : Int) : ℚ)) = floatRescale (getAbsolute s) d := rfl
  unfold normalizeAxis
  simp only [hcur, if_true]
  rw [hfold, toSInt16_of_range hq]
  split
  · apply toSInt16_of_range
    unfold isSInt16
    rw [compl_eq]; omega
  · rfl

/-- With dead-zone 0 the computed magnitude is the input magnitude or one less. -/
theorem floatRescale_zero (m : Int) (h1 : 1 ≤ m) (h2 : m ≤ 32767) :
    floatRescale m 0 = m ∨ floatRescale m 0 = m - 1 := by
  have hf := floatRescale_facts m 0 (le_refl 0) (by omega) h2
  obtain ⟨_, ha⟩ := rescale_analysis m 32767 h1 h2 (le_refl _)
  have hE : (32767 : ℚ) * (m : ℚ) / ((32767 : Int) : ℚ) = (m : ℚ) := by
    push_cast
    field_simp
  have hspec : specRescale m 0 = m := by
    rw [specRescale_eq_div (by omega) (by norm_num)]
    omega
  have hle : floatRescale m 0 ≤ m := by
    have hR : rescaleExpr (m : ℚ) ((0 : Int) : ℚ) (((32767 : Int) - 0 : Int) : ℚ) =
        roundBinary32 (roundBinary32 ((32767 : ℚ) * (m : ℚ)) / ((32767 : Int) : ℚ)) := by
      unfold rescaleExpr
      push_cast
      norm_num
    unfold floatRescale
    rw [hR]
    rw [hE, abs_lt] at ha
    have hpos : (0 : ℚ) ≤ roundBinary32 (roundBinary32 ((32767 : ℚ) * (m : ℚ)) /
        ((32767 : Int) : ℚ)) := by
      have : (1 : ℚ) ≤ (m : ℚ) := by exact_mod_cast h1
      linarith [ha.1]
    rw [truncToInt_of_nonneg hpos]
    have : ⌊roundBinary32 (roundBinary32 ((32767 : ℚ) * (m : ℚ)) /
        ((32767 : Int) : ℚ))⌋ < m + 1 := by
      rw [Int.floor_lt]
      push_cast
      linarith [ha.2]
    omega
  rw [hspec] at hf
  omega

/-- With dead-zone 0 a magnitude up to 512 is computed exactly: the product
`32767 * m` is below `2^24`. -/
theorem floatRescale_zero_small (m : Int) (h1 : 1 ≤ m) (h2 : m ≤ 512) :
    floatRescale m 0 = m := by
  have hP : roundBinary32 ((32767 : ℚ) * (m : ℚ)) = ((32767 * m : Int) : ℚ) := by
    have := roundBinary32_natCast_of_lt (32767 * m) (by omega) (by omega)
    push_cast at this ⊢
    exact this
  have hQ : ((32767 * m : Int) : ℚ) / (32767 : ℚ) = (m : ℚ) := by
    push_cast
    field_simp
  unfold floatRescale rescaleExpr
  have h0 : (32767 : ℚ) * ((m : ℚ) - ((0 : Int) : ℚ)) = (32767 : ℚ) * (m : ℚ) := by
    push_cast; ring
  have hk : ((((32767 : Int) - 0 : Int)) : ℚ) = (32767 : ℚ) := by norm_num
  rw [h0, hk, hP, hQ, roundBinary32_natCast_of_lt m (by omega) (by omega)]
  rw [truncToInt_of_nonneg (by exact_mod_cast (by omega : (0 : Int) ≤ m))]
  exact Int.floor_intCast m

theorem floatRescale_eval (m d : Int) (v : ℚ) (n : Int)
    (hv : rescaleExpr (m : ℚ) (d : ℚ) (((32767 : Int) - d : Int) : ℚ) = v)
    (hn : 0 ≤ n) (h1 : (n : ℚ) ≤ v) (h2 : v < (n : ℚ) + 1) : floatRescale m d = n := by
  have h0 : (0 : ℚ) ≤ v := le_trans (by exact_mod_cast hn) h1
  unfold floatRescale
  rw [hv, truncToInt_of_nonneg h0, Int.floor_eq_iff]
  exact ⟨h1, h2⟩

theorem rescaleExpr_300_100 : rescaleExpr 300 100 32667 = 3286831 / 16384 := by
  have hP : roundBinary32 ((32767 : ℚ) * (300 - 100)) = 6553400 := by
    have h : (32767 : ℚ) * (300 - 100) = 6553400 := by norm_num
    rw [h, roundBinary32_eval 22 13106800 (by norm_num) (by norm_num) (by norm_num)
      (by norm_num) (by norm_num)]
    norm_num
  have hQ : roundBinary32 ((6553400 : ℚ) / 32667) = 3286831 / 16384 := by
    rw [roundBinary32_eval 7 13147324 (by norm_num) (by norm_num) (by norm_num)
      (by norm_num) (by norm_num)]
    norm_num
  unfold rescaleExpr
  rw [hP, hQ]

theorem rescaleExpr_200_100 : rescaleExpr 200 100 32667 = 3286831 / 32768 := by
  have hP : roundBinary32 ((32767 : ℚ) * (200 - 100)) = 3276700 := by
    have h : (32767 : ℚ) * (200 - 100) = 3276700 := by norm_num
    rw [h, roundBinary32_eval 21 13106800 (by norm_num) (by norm_num) (by norm_num)
      (by norm_num) (by norm_num)]
    norm_num
  have hQ : roundBinary32 ((3276700 : ℚ) / 32667) = 3286831 / 32768 := by
    rw [roundBinary32_eval 6 13147324 (by norm_num) (by norm_num) (by norm_num)
      (by norm_num) (by norm_num)]
    norm_num
  unfold rescaleExpr
  rw [hP, hQ]

theorem floatRescale_5000_100 : floatRescale 5000 100 = 4915 :=
  floatRescale_eval 5000 100 4915 4915 (by norm_num; exact rescaleExpr_5000_100)
    (by norm_num) (by norm_num) (by norm_num)

theorem floatRescale_515_0 : floatRescale 515 0 = 514 :=
  floatRescale_eval 515 0 (8437759 / 16384) 514 (by norm_num; exact rescaleExpr_515_0)
    (by norm_num) (by norm_num) (by norm_num)

theorem floatRescale_32767_0 : floatRescale 32767 0 = 32767 :=
  floatRescale_eval 32767 0 32767 32767 (by norm_num; exact rescaleExpr_32767_0)
    (by norm_num) (by norm_num) (by norm_num)

theorem floatRescale_300_100 : floatRescale 300 100 = 200 :=
  floatRescale_eval 300 100 (3286831 / 16384) 200 (by norm_num; exact rescaleExpr_300_100)
    (by norm_num) (by norm_num) (by norm_num)

theorem floatRescale_200_100 : floatRescale 200 100 = 100 :=
  floatRescale_eval 200 100 (3286831 / 32768) 100 (by norm_num; exact rescaleExpr_200_100)
    (by norm_num) (by norm_num) (by norm_num)

theorem normalizeAxis_300_100 : normalizeAxis 300 100 = 200 := by
  rw [normalizeAxis_above (by decide) (by decide) (by decide)]
  have : getAbsolute 300 = 300 := by decide
  rw [this, floatRescale_300_100]
  decide

theorem normalizeAxis_5000_100 : normalizeAxis 5000 100 = 4915 := by
  rw [normalizeAxis_above (by decide) (by decide) (by decide)]
  have : getAbsolute 5000 = 5000 := by decide
  rw [this, floatRescale_5000_100]
  decide

theorem normalizeAxis_200_100 : normalizeAxis 200 100 = 100 := by
  rw [normalizeAxis_above (by decide) (by decide) (by decide)]
  have : getAbsolute 200 = 200 := by decide
  rw [this, floatRescale_200_100]
  decide

theorem normalizeAxis_515_0 : normalizeAxis 515 0 = 514 := by
  rw [normalizeAxis_above (by decide) (by decide) (by decide)]
  have : getAbsolute 515 = 515 := by decide
  rw [this, floatRescale_515_0]
  decide

theorem specRescale_5000_100 : specRescale 5000 100 = 4914 := by
  rw [specRescale_eq_div (by decide) (by decide)]
  decide

/-- Inside the dead-zone the axis is set to 0. -/
theorem normalizeAxis_of_le {s d : Int} (h : getAbsolute s ≤ d) : normalizeAxis s d = 0 := by
  have hcur : ¬ ((getAbsolute s : Int) : ℚ) > (d : ℚ) := by
    have : ((getAbsolute s : Int) : ℚ) ≤ (d : ℚ) := by exact_mod_cast h
    exact not_lt.mpr this
  unfold normalizeAxis
  simp only [hcur, if_false]

theorem normalizeAxis_neg_one_zero : normalizeAxis (-1) 0 = 0 :=
  normalizeAxis_of_le (by decide)

/-! ## Theorems: axis normalizer -/

/-- C1: for every signed 16-bit sample `s` whose magnitude (`s` itself when
`s >= 0`, the complement `~s` when `s < 0`; this is what `getAbsolute` returns)
is at most the dead-zone `d`, `normalizeAxis` sets the axis to 0. The bound
`0 <= d <= 32767` of the claim is not needed. -/
theorem normalizeAxis_zero_within_deadzone (s d : Int) (hs : isSInt16 s)
    (h : (if s < 0 then ~~~s else s) ≤ d) :
    getAbsolute s = (if s < 0 then ~~~s else s) ∧ normalizeAxis s d = 0 := by
  have habs := getAbsolute_eq hs
  refine ⟨habs, ?_⟩
  rw [← habs] at h
  exact normalizeAxis_of_le h

theorem normalizeAxis_zero_within_deadzone_witness :
    isSInt16 (-101) ∧ (if (-101 : Int) < 0 then ~~~(-101 : Int) else -101) ≤ 100 ∧
      (getAbsolute (-101) = (if (-101 : Int) < 0 then ~~~(-101 : Int) else -101) ∧
        normalizeAxis (-101) 100 = 0) :=
  ⟨by decide, by decide,
   normalizeAxis_zero_within_deadzone (-101) 100 (by decide) (by decide)⟩

/-- C2 as stated fails: the sample `-1` has magnitude `~(-1) = 0`, which is not
above the dead-zone 0, so `normalizeAxis(-1, 0)` is 0 and not `-1`; and the
sample 515 comes out as 514, because the product `32767 * 515` is rounded to
binary32 before the division. -/
theorem normalizeAxis_deadzone_zero_counterexample :
    isSInt16 (-1) ∧ normalizeAxis (-1) 0 = 0 ∧ normalizeAxis (-1) 0 ≠ -1 ∧
    isSInt16 515 ∧ normalizeAxis 515 0 = 514 ∧ normalizeAxis 515 0 ≠ 515 := by
  have h : normalizeAxis (-1) 0 = 0 := normalizeAxis_neg_one_zero
  have h2 : normalizeAxis 515 0 = 514 := normalizeAxis_515_0
  exact ⟨by decide, h, by rw [h]; decide, by decide, h2, by rw [h2]; decide⟩

/-- C2 amended: for every signed 16-bit sample `s` other than `-1`,
`normalizeAxis(s, 0)` leaves the axis equal to `s` or moves it one step toward
zero (`s - 1` for positive `s`, `s + 1` for negative `s`), the product and the
quotient being rounded to binary32 before the truncation; it leaves the axis
equal to `s` for every sample of magnitude at most 512 and for 0, 32767 and
-32768; for `s = -1` the axis becomes 0. -/
theorem normalizeAxis_deadzone_zero (s : Int) (hs : isSInt16 s) :
    (s ≠ -1 → (normalizeAxis s 0 = s ∨ (0 < s ∧ normalizeAxis s 0 = s - 1) ∨
      (s < 0 ∧ normalizeAxis s 0 = s + 1))) ∧
    (s ≠ -1 → getAbsolute s ≤ 512 → normalizeAxis s 0 = s) ∧
    (s = 0 ∨ s = 32767 ∨ s = -32768 → normalizeAxis s 0 = s) ∧
    (s = -1 → normalizeAxis s 0 = 0) := by
  have habs := getAbsolute_eq hs
  have hr := getAbsolute_range hs
  have hs2 := hs
  unfold isSInt16 at hs2
  have hzero : normalizeAxis 0 0 = 0 := normalizeAxis_of_le (by decide)
  have hmain : s ≠ 0 → s ≠ -1 →
      0 < getAbsolute s ∧
      normalizeAxis s 0 = (if s < 0 then ~~~(floatRescale (getAbsolute s) 0)
        else floatRescale (getAbsolute s) 0) := by
    intro h0 hne
    have hm : (0 : Int) < getAbsolute s := by
      rw [habs]; split
      · rw [compl_eq]; omega
      · omega
    exact ⟨hm, normalizeAxis_above hs (le_refl 0) hm⟩
  refine ⟨?_, ?_, ?_, ?_⟩
  · intro hne
    by_cases h0 : s = 0
    · left; rw [h0]; exact hzero
    · obtain ⟨hm, hval⟩ := hmain h0 hne
      have hc := floatRescale_zero (getAbsolute s) (by omega) hr.2
      rw [hval]
      by_cases hneg : s < 0
      · rw [if_pos hneg]
        rw [if_pos hneg] at habs
        rw [compl_eq] at habs
        rcases hc with hc | hc
        · left; rw [hc, compl_eq]; omega
        · right; right; rw [hc, compl_eq]; exact ⟨hneg, by omega⟩
      · rw [if_neg hneg]
        rw [if_neg hneg] at habs
        rcases hc with hc | hc
        · left; rw [hc]; exact habs
        · right; left; rw [hc]; exact ⟨by omega, by omega⟩
  · intro hne hsmall
    by_cases h0 : s = 0
    · rw [h0]; exact hzero
    · obtain ⟨hm, hval⟩ := hmain h0 hne
      have hc := floatRescale_zero_small (getAbsolute s) (by omega) hsmall
      rw [hval, hc]
      by_cases hneg : s < 0
      · rw [if_pos hneg]
        rw [if_pos hneg] at habs
        rw [habs, compl_eq, compl_eq]; omega
      · rw [if_neg hneg]
        rw [if_neg hneg] at habs
        exact habs
  · intro h
    rcases h with h | h | h
    · rw [h]; exact hzero
    · rw [h, normalizeAxis_above (by decide) (by decide) (by decide)]
      have : getAbsolute 32767 = 32767 := by decide
      rw [this, floatRescale_32767_0]
      decide
    · rw [h, normalizeAxis_above (by decide) (by decide) (by decide)]
      have : getAbsolute (-32768) = 32767 := by decide
      rw [this, floatRescale_32767_0]
      decide
  · intro he
    rw [he]
    exact normalizeAxis_neg_one_zero

theorem normalizeAxis_deadzone_zero_witness :
    isSInt16 (-32768) ∧ normalizeAxis (-32768) 0 = -32768 :=
  ⟨by decide, (normalizeAxis_deadzone_zero (-32768) (by decide)).2.2.1
    (Or.inr (Or.inr rfl))⟩

/-- C3 as stated fails: for the sample 5000 and the dead-zone 100 the exact
quotient `32767 * 4900 / 32667`, truncated, is 4914, while `normalizeAxis`
yields 4915: the product is rounded to binary32 (to 160558304) and the
rounded quotient is 4915. -/
theorem normalizeAxis_rescale_counterexample :
    isSInt16 5000 ∧ (100 : Int) < getAbsolute 5000 ∧
    specRescale (getAbsolute 5000) 100 = 4914 ∧ normalizeAxis 5000 100 = 4915 ∧
    normalizeAxis 5000 100 ≠ specRescale (getAbsolute 5000) 100 := by
  have hg : getAbsolute 5000 = 5000 := by decide
  have h1 : specRescale (getAbsolute 5000) 100 = 4914 := by
    rw [hg]; exact specRescale_5000_100
  have h2 : normalizeAxis 5000 100 = 4915 := normalizeAxis_5000_100
  refine ⟨by decide, by decide, h1, h2, ?_⟩
  rw [h1, h2]
  decide

/-- C3 amended: for a dead-zone `0 <= d < 32767` and a signed 16-bit sample `s`
whose magnitude `m` (`s` if `s >= 0`, `~s` if `s < 0`, the value of
`getAbsolute`) is above `d`, let `q` be `32767 * (m - d) / (32767 - d)` formed
exactly and then truncated, and let `r` be what the code computes: the same
expression in binary32, the product rounded and the quotient rounded, then
truncated (`floatRescale`). Then `r` differs from `q` by at most 1,
`1 <= r <= 32767`, `normalizeAxis(s, d)` is `r` when `s >= 0` and the complement
`~r` (which differs from `-r`) when `s < 0`, and the output has the sign of
`s`. The bound `d < 32767` follows from `d < m`. -/
theorem normalizeAxis_rescales (s d : Int) (hs : isSInt16 s) (hd0 : 0 ≤ d)
    (hm : d < (if s < 0 then ~~~s else s)) :
    getAbsolute s = (if s < 0 then ~~~s else s) ∧
    1 ≤ floatRescale (getAbsolute s) d ∧ floatRescale (getAbsolute s) d ≤ 32767 ∧
    specRescale (getAbsolute s) d - 1 ≤ floatRescale (getAbsolute s) d ∧
    floatRescale (getAbsolute s) d ≤ specRescale (getAbsolute s) d + 1 ∧
    (0 ≤ s → normalizeAxis s d = floatRescale (getAbsolute s) d ∧ 0 < normalizeAxis s d) ∧
    (s < 0 → normalizeAxis s d = ~~~(floatRescale (getAbsolute s) d) ∧
      normalizeAxis s d ≠ -(floatRescale (getAbsolute s) d) ∧ normalizeAxis s d < 0) := by
  have habs := getAbsolute_eq hs
  rw [← habs] at hm
  have hr := getAbsolute_range hs
  obtain ⟨b1, b2, b3, b4⟩ := floatRescale_facts (getAbsolute s) d hd0 hm hr.2
  have hval := normalizeAxis_above hs hd0 hm
  refine ⟨habs, b1, b2, b3, b4, ?_, ?_⟩
  · intro hpos
    rw [if_neg (not_lt.mpr hpos)] at hval
    rw [hval]
    exact ⟨rfl, by omega⟩
  · intro hneg
    rw [if_pos hneg] at hval
    rw [hval, compl_eq]
    exact ⟨rfl, by omega, by omega⟩

theorem normalizeAxis_rescales_witness :
    isSInt16 (-200) ∧ (0 : Int) ≤ 100 ∧
      (100 : Int) < (if (-200 : Int) < 0 then ~~~(-200 : Int) else -200) ∧
      normalizeAxis (-200) 100 = ~~~(floatRescale (getAbsolute (-200)) 100) :=
  ⟨by decide, by decide, by decide,
   ((normalizeAxis_rescales (-200) 100 (by decide) (by decide) (by decide)).2.2.2.2.2.2
      (by decide)).1⟩

/-- C4: `normalizeAxis` is monotonic in the magnitude outside the dead-zone:
for a dead-zone `d >= 0` and signed 16-bit samples `s1`, `s2` with magnitudes
`d < |s1| <= |s2|`, the magnitude of `normalizeAxis(s1, d)` is at most the
magnitude of `normalizeAxis(s2, d)` (magnitudes under the complement rule, as
`getAbsolute` computes them). It holds whether or not the samples have the
same sign; `d < 32767` follows from `d < |s1|`. The product and the quotient
are rounded to binary32, and rounding to nearest is monotonic. -/
theorem normalizeAxis_monotone (s1 s2 d : Int) (hs1 : isSInt16 s1) (hs2 : isSInt16 s2)
    (hd0 : 0 ≤ d) (h1 : d < getAbsolute s1) (h12 : getAbsolute s1 ≤ getAbsolute s2) :
    getAbsolute (normalizeAxis s1 d) ≤ getAbsolute (normalizeAxis s2 d) := by
  have hr1 := getAbsolute_range hs1
  have hr2 := getAbsolute_range hs2
  have h2 : d < getAbsolute s2 := lt_of_lt_of_le h1 h12
  have hb1 := floatRescale_facts (getAbsolute s1) d hd0 h1 hr1.2
  have hb2 := floatRescale_facts (getAbsolute s2) d hd0 h2 hr2.2
  have hmag : ∀ (s q : Int), 1 ≤ q → q ≤ 32767 →
      getAbsolute (if s < 0 then ~~~q else q) = q := by
    intro s q hq1 hq2
    split
    · have hc : isSInt16 (~~~q) := by unfold isSInt16; rw [compl_eq]; omega
      rw [getAbsolute_eq hc, compl_eq, compl_eq]
      rw [if_pos (by omega)]; omega
    · have hc : isSInt16 q := by unfold isSInt16; omega
      rw [getAbsolute_eq hc, if_neg (by omega)]
  rw [normalizeAxis_above hs1 hd0 h1, normalizeAxis_above hs2 hd0 h2,
    hmag s1 _ hb1.1 hb1.2.1, hmag s2 _ hb2.1 hb2.2.1]
  exact floatRescale_mono (getAbsolute s1) (getAbsolute s2) d h1 h12 hr2.2

theorem normalizeAxis_monotone_witness :
    isSInt16 (-200) ∧ isSInt16 300 ∧ (0 : Int) ≤ 100 ∧ 100 < getAbsolute (-200) ∧
      getAbsolute (-200) ≤ getAbsolute 300 ∧
      getAbsolute (normalizeAxis (-200) 100) ≤ getAbsolute (normalizeAxis 300 100) :=
  ⟨by decide, by decide, by decide, by decide, by decide,
   normalizeAxis_monotone (-200) 300 100 (by decide) (by decide) (by decide) (by decide)
     (by decide)⟩

/-! ## Theorems: accessory handshake -/

/-- A run of ticks with nothing heard, started in Toggling and inactive, stays
in Toggling and inactive, executes every tick in Toggling and raises no event. -/
theorem idle_run (n : Nat) (s : SerialState)
    (hst : s.serialTimerState = TimerState.tsToggle) (hact : s.serialActive = false) :
    (runTicks s (List.replicate n false)).1.serialTimerState = TimerState.tsToggle ∧
    (runTicks s (List.replicate n false)).1.serialActive = false ∧
    (∀ st ∈ executedStates (runTicks s (List.replicate n false)).2,
      st = TimerState.tsToggle) ∧
    connectCount (allEffects (runTicks s (List.replicate n false)).2) = 0 ∧
    disconnectCount (allEffects (runTicks s (List.replicate n false)).2) = 0 ∧
    (∀ t ∈ (runTicks s (List.replicate n false)).2, delaysOf t.2 = [1000]) := by
  induction n generalizing s with
  | zero =>
    refine ⟨hst, hact, ?_, rfl, rfl, ?_⟩
    · intro st h; simp [runTicks, executedStates] at h
    · intro t h; simp [runTicks] at h
  | succ k ih =>
    obtain ⟨st, tg, act, hd, cnt⟩ := s
    simp only at hst hact
    subst hst hact
    have hstep : tickWith ⟨TimerState.tsToggle, tg, false, hd, cnt⟩ false =
        (⟨TimerState.tsToggle, !tg, false, false, cnt⟩,
         [TimerEffect.sendSpecial (if tg then 0x1F else 0x1E),
          TimerEffect.setTimeoutMS 1000]) := rfl
    have ih2 := ih ⟨TimerState.tsToggle, !tg, false, false, cnt⟩ rfl rfl
    obtain ⟨i1, i2, i3, i4, i5, i6⟩ := ih2
    simp only [List.replicate_succ, runTicks, hstep]
    refine ⟨i1, i2, ?_, ?_, ?_, ?_⟩
    · intro st h
      simp only [executedStates, List.map_cons, List.mem_cons] at h
      rcases h with h | h
      · exact h
      · exact i3 st h
    · simp only [connectCount, allEffects, List.map_cons, List.flatten_cons,
        List.count_append] at i4 ⊢
      rw [i4]
      cases tg <;> rfl
    · simp only [disconnectCount, allEffects, List.map_cons, List.flatten_cons,
        List.count_append] at i5 ⊢
      rw [i5]
      cases tg <;> rfl
    · intro t h
      simp only [List.mem_cons] at h
      rcases h with h | h
      · subst h; rfl
      · exact i6 t h

/-- C5: starting in Toggling with the accessory inactive (any toggle parity and
retry counter), if the activity-heard flag is true at the start of every tick,
the six ticks execute in Toggling, Resetting-1, Resetting-2, MiniToggling,
Setting-1, Setting-2, the state after them is Setting-3 and after fewer ticks
it is not, and the delays programmed are 40, 35, 150, 40, 10, 10 in that
order, 285 ms in total. -/
theorem handshake_reaches_set3_in_six_ticks (toggle heard0 : Bool) (count : Nat) :
    (runTicks ⟨TimerState.tsToggle, toggle, false, heard0, count⟩
        (List.replicate 6 true)).1.serialTimerState = TimerState.tsSet3 ∧
    (∀ k, k < 6 →
      (runTicks ⟨TimerState.tsToggle, toggle, false, heard0, count⟩
        (List.replicate k true)).1.serialTimerState ≠ TimerState.tsSet3) ∧
    executedStates (runTicks ⟨TimerState.tsToggle, toggle, false, heard0, count⟩
        (List.replicate 6 true)).2 =
      [TimerState.tsToggle, TimerState.tsReset1, TimerState.tsReset2,
       TimerState.tsMiniToggle, TimerState.tsSet1, TimerState.tsSet2] ∧
    (runTicks ⟨TimerState.tsToggle, toggle, false, heard0, count⟩
        (List.replicate 6 true)).2.map (fun t => delaysOf t.2) =
      [[40], [35], [150], [40], [10], [10]] ∧
    (delaysOf (allEffects (runTicks ⟨TimerState.tsToggle, toggle, false, heard0, count⟩
        (List.replicate 6 true)).2)).sum = 285 := by
  refine ⟨rfl, ?_, rfl, ?_, ?_⟩
  · intro k hk
    have hcases : k = 0 ∨ k = 1 ∨ k = 2 ∨ k = 3 ∨ k = 4 ∨ k = 5 := by omega
    rcases hcases with h | h | h | h | h | h <;> subst h <;> intro hc <;>
      exact TimerState.noConfusion hc
  · cases toggle <;> rfl
  · cases toggle <;> rfl

/-- C6 as stated fails: from Toggling, inactive, with activity heard at every
tick, the first 6 ticks raise no Connect at all (so not exactly one). -/
theorem handshake_connect_counterexample :
    connectCount (allEffects (runTicks ⟨TimerState.tsToggle, false, false, false, 0⟩
      (List.replicate 6 true)).2) = 0 ∧
    connectCount (allEffects (runTicks ⟨TimerState.tsToggle, false, false, false, 0⟩
      (List.replicate 6 true)).2) ≠ 1 := by
  constructor
  · rfl
  · decide

/-- C6 amended: starting in Toggling with the accessory inactive and the
activity-heard flag true at the start of each of the first 6 ticks, no Connect
is raised during the first 6 ticks; the 7th tick executes in Setting-3 and,
whatever the flag is then, raises exactly one Connect after programming a
delay of 940 ms, so exactly one Connect (and no Disconnect) is raised during
the first 7 ticks, after which the state is Toggling and active. -/
theorem handshake_connect_on_seventh_tick (toggle heard0 heard7 : Bool) (count : Nat) :
    connectCount (allEffects (runTicks ⟨TimerState.tsToggle, toggle, false, heard0, count⟩
      (List.replicate 6 true)).2) = 0 ∧
    (tickWith (runTicks ⟨TimerState.tsToggle, toggle, false, heard0, count⟩
      (List.replicate 6 true)).1 heard7).2 =
      [TimerEffect.sendSpecial 0x03, TimerEffect.setTimeoutMS 940,
       TimerEffect.serialConnect] ∧
    connectCount (allEffects (runTicks ⟨TimerState.tsToggle, toggle, false, heard0, count⟩
      (List.replicate 6 true ++ [heard7])).2) = 1 ∧
    disconnectCount (allEffects (runTicks ⟨TimerState.tsToggle, toggle, false, heard0, count⟩
      (List.replicate 6 true ++ [heard7])).2) = 0 ∧
    (executedStates (runTicks ⟨TimerState.tsToggle, toggle, false, heard0, count⟩
      (List.replicate 6 true ++ [heard7])).2)[6]? = some TimerState.tsSet3 ∧
    (runTicks ⟨TimerState.tsToggle, toggle, false, heard0, count⟩
      (List.replicate 6 true ++ [heard7])).1.serialTimerState = TimerState.tsToggle ∧
    (runTicks ⟨TimerState.tsToggle, toggle, false, heard0, count⟩
      (List.replicate 6 true ++ [heard7])).1.serialActive = true := by
  refine ⟨?_, rfl, ?_, ?_, rfl, rfl, rfl⟩
  · cases toggle <;> rfl
  · cases toggle <;> rfl
  · cases toggle <;> rfl

/-- C7: starting in Toggling with the accessory active, if the activity-heard
flag is false at the start of every tick, the first tick sends the toggle
message, programs a delay of 1000 ms and raises exactly one Disconnect, leaving
the state Toggling and inactive; for every number `n` of later ticks, each of
them executes in Toggling and programs 1000 ms, none raises a Connect or a
Disconnect, and the state stays Toggling and inactive. -/
theorem handshake_disconnect_once (toggle heard0 : Bool) (count n : Nat) :
    (tickWith ⟨TimerState.tsToggle, toggle, true, heard0, count⟩ false).2 =
      [TimerEffect.sendSpecial (if toggle then 0x1F else 0x1E),
       TimerEffect.setTimeoutMS 1000, TimerEffect.serialDisconnect] ∧
    (tickWith ⟨TimerState.tsToggle, toggle, true, heard0, count⟩ false).1.serialTimerState
      = TimerState.tsToggle ∧
    (tickWith ⟨TimerState.tsToggle, toggle, true, heard0, count⟩ false).1.serialActive
      = false ∧
    (runTicks (tickWith ⟨TimerState.tsToggle, toggle, true, heard0, count⟩ false).1
      (List.replicate n false)).1.serialTimerState = TimerState.tsToggle ∧
    (runTicks (tickWith ⟨TimerState.tsToggle, toggle, true, heard0, count⟩ false).1
      (List.replicate n false)).1.serialActive = false ∧
    (∀ st ∈ executedStates (runTicks
        (tickWith ⟨TimerState.tsToggle, toggle, true, heard0, count⟩ false).1
        (List.replicate n false)).2, st = TimerState.tsToggle) ∧
    connectCount (allEffects (runTicks
        (tickWith ⟨TimerState.tsToggle, toggle, true, heard0, count⟩ false).1
        (List.replicate n false)).2) = 0 ∧
    disconnectCount (allEffects (runTicks
        (tickWith ⟨TimerState.tsToggle, toggle, true, heard0, count⟩ false).1
        (List.replicate n false)).2) = 0 ∧
    (∀ t ∈ (runTicks (tickWith ⟨TimerState.tsToggle, toggle, true, heard0, count⟩ false).1
        (List.replicate n false)).2, delaysOf t.2 = [1000]) := by
  have h := idle_run n (tickWith ⟨TimerState.tsToggle, toggle, true, heard0, count⟩ false).1
    rfl rfl
  exact ⟨rfl, rfl, rfl, h⟩

/-- C8: when the reset sequence is entered from Toggling (a tick in Toggling,
inactive, with activity heard, which sets the retry counter to 0 and moves to
Resetting-1), and the activity-heard flag is false at every tick executed in
MiniToggling (the flags `h1 .. h8` at the Resetting ticks are arbitrary), the
next 12 ticks execute in Resetting-1, Resetting-2, MiniToggling four times
over, so MiniToggling is executed exactly 4 times; after the 4th the state is
Toggling with the retry counter at 4 and the accessory inactive, and after 11
or fewer ticks it is not Toggling; Setting-1 is neither executed nor the final
state, and no Connect is raised. -/
theorem handshake_retry_budget (toggle heard0 : Bool) (count : Nat)
    (h1 h2 h3 h4 h5 h6 h7 h8 : Bool) :
    (tickWith ⟨TimerState.tsToggle, toggle, false, heard0, count⟩ true).1 =
      ⟨TimerState.tsReset1, !toggle, false, false, 0⟩ ∧
    executedStates (runTicks ⟨TimerState.tsReset1, !toggle, false, false, 0⟩
      [h1, h2, false, h3, h4, false, h5, h6, false, h7, h8, false]).2 =
      [TimerState.tsReset1, TimerState.tsReset2, TimerState.tsMiniToggle,
       TimerState.tsReset1, TimerState.tsReset2, TimerState.tsMiniToggle,
       TimerState.tsReset1, TimerState.tsReset2, TimerState.tsMiniToggle,
       TimerState.tsReset1, TimerState.tsReset2, TimerState.tsMiniToggle] ∧
    (executedStates (runTicks ⟨TimerState.tsReset1, !toggle, false, false, 0⟩
      [h1, h2, false, h3, h4, false, h5, h6, false, h7, h8, false]).2).count
      TimerState.tsMiniToggle = 4 ∧
    (runTicks ⟨TimerState.tsReset1, !toggle, false, false, 0⟩
      [h1, h2, false, h3, h4, false, h5, h6, false, h7, h8, false]).1 =
      ⟨TimerState.tsToggle, !toggle, false, false, 4⟩ ∧
    (runTicks ⟨TimerState.tsReset1, !toggle, false, false, 0⟩
      [h1, h2, false, h3, h4, false, h5, h6, false, h7, h8]).1.serialTimerState =
      TimerState.tsMiniToggle ∧
    (∀ k, k < 12 →
      (runTicks ⟨TimerState.tsReset1, !toggle, false, false, 0⟩
        ([h1, h2, false, h3, h4, false, h5, h6, false, h7, h8, false].take k)
        ).1.serialTimerState ≠ TimerState.tsToggle) ∧
    TimerState.tsSet1 ∉ executedStates (runTicks ⟨TimerState.tsReset1, !toggle, false, false, 0⟩
      [h1, h2, false, h3, h4, false, h5, h6, false, h7, h8, false]).2 ∧
    connectCount (allEffects (runTicks ⟨TimerState.tsReset1, !toggle, false, false, 0⟩
      [h1, h2, false, h3, h4, false, h5, h6, false, h7, h8, false]).2) = 0 := by
  refine ⟨rfl, rfl, rfl, ?_, rfl, ?_, ?_, ?_⟩
  · cases toggle <;> rfl
  · intro k hk
    have hcases : k = 0 ∨ k = 1 ∨ k = 2 ∨ k = 3 ∨ k = 4 ∨ k = 5 ∨ k = 6 ∨ k = 7 ∨ k = 8 ∨
        k = 9 ∨ k = 10 ∨ k = 11 := by omega
    rcases hcases with h | h | h | h | h | h | h | h | h | h | h | h <;> subst h <;>
      intro hc <;> exact TimerState.noConfusion hc
  · intro hc
    have : executedStates (runTicks ⟨TimerState.tsReset1, !toggle, false, false, 0⟩
      [h1, h2, false, h3, h4, false, h5, h6, false, h7, h8, false]).2 =
      [TimerState.tsReset1, TimerState.tsReset2, TimerState.tsMiniToggle,
       TimerState.tsReset1, TimerState.tsReset2, TimerState.tsMiniToggle,
       TimerState.tsReset1, TimerState.tsReset2, TimerState.tsMiniToggle,
       TimerState.tsReset1, TimerState.tsReset2, TimerState.tsMiniToggle] := rfl
    rw [this] at hc
    revert hc
    decide
  · cases toggle <;> rfl

/-! ## Theorems: report classification -/

/-- C9: on a read completion with status success, with the pad handler attached
and the read buffer present, `ReadComplete` calls the pad handler on the buffer
exactly when (command is the standard input-report command and the declared
size is the size of the standard input report) or command is 0x20 or command
is 0x07, and then calls it once; for every other buffer it makes no handler
call and logs no error, its only effect being the re-arm of the read when the
driver is not inactive. In particular that is so for every command other than
the three, and, the standard command being neither 0x20 nor 0x07, for the
standard command with another declared size. The two constants of the header
are parameters. -/
theorem ReadComplete_classifies (inReport sizeofInReport : Nat) (c : ReadCtx)
    (buf : InReportBuffer) (hpad : c.padHandlerAttached = true)
    (hbuf : c.inBuffer = some buf) :
    (IOEffect.padHandleReport buf ∈
        ReadComplete inReport sizeofInReport c IOReturn.kIOReturnSuccess ↔
      ((buf.command = inReport ∧ buf.size = sizeofInReport)
        ∨ buf.command = 0x20 ∨ buf.command = 0x07)) ∧
    (((buf.command = inReport ∧ buf.size = sizeofInReport)
        ∨ buf.command = 0x20 ∨ buf.command = 0x07) →
      padHandlerCalls (ReadComplete inReport sizeofInReport c IOReturn.kIOReturnSuccess)
        = 1) ∧
    (¬ ((buf.command = inReport ∧ buf.size = sizeofInReport)
        ∨ buf.command = 0x20 ∨ buf.command = 0x07) →
      ReadComplete inReport sizeofInReport c IOReturn.kIOReturnSuccess =
          (if c.inactive then [] else [IOEffect.queueRead]) ∧
      padHandlerCalls (ReadComplete inReport sizeofInReport c IOReturn.kIOReturnSuccess)
        = 0 ∧
      errorLogs (ReadComplete inReport sizeofInReport c IOReturn.kIOReturnSuccess) = 0) ∧
    (buf.command ≠ inReport → buf.command ≠ 0x20 → buf.command ≠ 0x07 →
      padHandlerCalls (ReadComplete inReport sizeofInReport c IOReturn.kIOReturnSuccess)
        = 0 ∧
      errorLogs (ReadComplete inReport sizeofInReport c IOReturn.kIOReturnSuccess) = 0) ∧
    (inReport ≠ 0x20 → inReport ≠ 0x07 → buf.command = inReport →
      buf.size ≠ sizeofInReport →
      padHandlerCalls (ReadComplete inReport sizeofInReport c IOReturn.kIOReturnSuccess)
        = 0 ∧
      errorLogs (ReadComplete inReport sizeofInReport c IOReturn.kIOReturnSuccess) = 0) := by
  have main : (IOEffect.padHandleReport buf ∈
        ReadComplete inReport sizeofInReport c IOReturn.kIOReturnSuccess ↔
      ((buf.command = inReport ∧ buf.size = sizeofInReport)
        ∨ buf.command = 0x20 ∨ buf.command = 0x07)) ∧
    (((buf.command = inReport ∧ buf.size = sizeofInReport)
        ∨ buf.command = 0x20 ∨ buf.command = 0x07) →
      padHandlerCalls (ReadComplete inReport sizeofInReport c IOReturn.kIOReturnSuccess)
        = 1) ∧
    (¬ ((buf.command = inReport ∧ buf.size = sizeofInReport)
        ∨ buf.command = 0x20 ∨ buf.command = 0x07) →
      ReadComplete inReport sizeofInReport c IOReturn.kIOReturnSuccess =
          (if c.inactive then [] else [IOEffect.queueRead]) ∧
      padHandlerCalls (ReadComplete inReport sizeofInReport c IOReturn.kIOReturnSuccess)
        = 0 ∧
      errorLogs (ReadComplete inReport sizeofInReport c IOReturn.kIOReturnSuccess) = 0) := by
    by_cases hacc : (buf.command = inReport ∧ buf.size = sizeofInReport)
        ∨ buf.command = 0x20 ∨ buf.command = 0x07
    · have hrc : ReadComplete inReport sizeofInReport c IOReturn.kIOReturnSuccess =
          [IOEffect.padHandleReport buf] ++
            (if c.handleReportResult ≠ IOReturn.kIOReturnSuccess
              then [IOEffect.logHandleReportFailed] else []) ++
            (if (!c.inactive) = true then [IOEffect.queueRead] else []) := by
        simp only [ReadComplete, readSuccessCase, hpad, hbuf, if_true, if_pos hacc]
      refine ⟨?_, ?_, ?_⟩
      · constructor
        · intro _; exact hacc
        · intro _; rw [hrc]; simp
      · intro _
        rw [hrc]
        cases c.inactive <;> by_cases hres : c.handleReportResult = IOReturn.kIOReturnSuccess <;>
          simp [padHandlerCalls, hres]
      · intro hn; exact absurd hacc hn
    · have hrc : ReadComplete inReport sizeofInReport c IOReturn.kIOReturnSuccess =
          (if c.inactive then [] else [IOEffect.queueRead]) := by
        simp only [ReadComplete, readSuccessCase, hpad, hbuf, if_true, if_neg hacc]
        cases c.inactive <;> rfl
      refine ⟨?_, ?_, ?_⟩
      · constructor
        · intro hmem
          rw [hrc] at hmem
          cases hin : c.inactive <;> simp [hin] at hmem
        · intro h; exact absurd h hacc
      · intro h; exact absurd h hacc
      · intro _
        rw [hrc]
        refine ⟨rfl, ?_, ?_⟩
        · cases c.inactive <;> rfl
        · cases c.inactive <;> rfl
  obtain ⟨m1, m2, m3⟩ := main
  refine ⟨m1, m2, m3, ?_, ?_⟩
  · intro h1 h2 h3
    exact (m3 (by rintro (⟨h, _⟩ | h | h) <;> contradiction)).2
  · intro h1 h2 h3 h4
    refine (m3 ?_).2
    rintro (⟨_, h⟩ | h | h)
    · exact h4 h
    · exact h1 (h3 ▸ h)
    · exact h2 (h3 ▸ h)

theorem ReadComplete_classifies_witness :
    IOEffect.padHandleReport ⟨0x20, 14, []⟩ ∈
      ReadComplete 0 20 ⟨true, false, true, some ⟨0x20, 14, []⟩, IOReturn.kIOReturnSuccess⟩
        IOReturn.kIOReturnSuccess :=
  (ReadComplete_classifies 0 20
    ⟨true, false, true, some ⟨0x20, 14, []⟩, IOReturn.kIOReturnSuccess⟩ ⟨0x20, 14, []⟩
    rfl rfl).1.mpr (Or.inr (Or.inl rfl))

/-- C10: with an accessory handler attached, `SerialMessage` calls the handler
on a frame if and only if the length passed is exactly 5 and the first byte is
0x00, and otherwise makes no call at all. On a successful completion
`SerialReadComplete` passes the buffer capacity minus the bytes remaining as
that length, so (for a 32-bit `bufferSizeRemaining` and a capacity below 2^64)
the handler is called exactly when capacity minus remaining is 5 and the first
byte is 0x00. -/
theorem SerialMessage_classifies (c : SerialReadCtx) (data : List Nat) (length remaining : Nat)
    (hpad : c.padHandlerAttached = true) (hser : c.serialHandlerAttached = true)
    (hbuf : c.serialInBuffer = some data)
    (hrem : remaining < 2 ^ 32) (hcap : data.length < 2 ^ 64) :
    (SerialMessage true data length = [IOEffect.serialHandleReport data] ↔
      (length = 5 ∧ data.head? = some 0)) ∧
    (¬ (length = 5 ∧ data.head? = some 0) → SerialMessage true data length = []) ∧
    (serialHandlerCalls (SerialReadComplete c IOReturn.kIOReturnSuccess remaining).2 = 1 ↔
      ((data.length : Int) - (remaining : Int) = 5 ∧ data.head? = some 0)) ∧
    (¬ ((data.length : Int) - (remaining : Int) = 5 ∧ data.head? = some 0) →
      serialHandlerCalls (SerialReadComplete c IOReturn.kIOReturnSuccess remaining).2 = 0) := by
  have hsm : ∀ len, (len = 5 ∧ data.head? = some 0) →
      SerialMessage true data len = [IOEffect.serialHandleReport data] := by
    intro len h
    simp only [SerialMessage, if_true, if_pos h]
  have hsm2 : ∀ len, ¬ (len = 5 ∧ data.head? = some 0) → SerialMessage true data len = [] := by
    intro len h
    simp only [SerialMessage, if_true, if_neg h]
  have hlen : sizeSub data.length remaining = 5 ↔
      (data.length : Int) - (remaining : Int) = 5 := by
    unfold sizeSub
    omega
  have hrc : (SerialReadComplete c IOReturn.kIOReturnSuccess remaining).2 =
      SerialMessage true data (sizeSub data.length remaining) ++
        (if (!c.inactive) = true then [IOEffect.queueSerialRead] else []) := by
    simp only [SerialReadComplete, serialSuccessCase, hpad, hbuf, hser, if_true]
  have hcount0 : ¬ ((data.length : Int) - (remaining : Int) = 5 ∧ data.head? = some 0) →
      serialHandlerCalls (SerialReadComplete c IOReturn.kIOReturnSuccess remaining).2 = 0 := by
    intro h
    rw [hrc, hsm2 _ (by rw [hlen]; exact h)]
    cases c.inactive <;> rfl
  refine ⟨?_, hsm2 length, ?_, hcount0⟩
  · constructor
    · intro h
      by_contra hn
      rw [hsm2 length hn] at h
      exact List.noConfusion h
    · exact hsm length
  · constructor
    · intro h
      by_contra hn
      rw [hcount0 hn] at h
      exact absurd h (by decide)
    · intro h
      rw [hrc, hsm _ (by rw [hlen]; exact h)]
      cases c.inactive <;> rfl

theorem SerialMessage_classifies_witness :
    serialHandlerCalls (SerialReadComplete
      ⟨true, false, true, some [0, 1, 2, 3, 4, 9, 9, 9], true, false⟩
      IOReturn.kIOReturnSuccess 3).2 = 1 :=
  (SerialMessage_classifies ⟨true, false, true, some [0, 1, 2, 3, 4, 9, 9, 9], true, false⟩
    [0, 1, 2, 3, 4, 9, 9, 9] 5 3 rfl rfl rfl (by decide) (by decide)).2.2.1.mpr
    ⟨by decide, rfl⟩

/-! ## Theorems: handshake table and invariant -/

/-- C14 as stated fails: a tick in MiniToggling with nothing heard and the retry
counter at 3 raises the counter to 4, returns to Toggling and programs a delay
of 1000 ms, not 40 ms. -/
theorem miniToggle_exhausted_delay_counterexample :
    (tickWith ⟨TimerState.tsMiniToggle, false, false, false, 3⟩ false).1 =
      ⟨TimerState.tsToggle, true, false, false, 4⟩ ∧
    delaysOf (tickWith ⟨TimerState.tsMiniToggle, false, false, false, 3⟩ false).2 = [1000] ∧
    delaysOf (tickWith ⟨TimerState.tsMiniToggle, false, false, false, 3⟩ false).2 ≠ [40] := by
  refine ⟨rfl, rfl, ?_⟩
  decide

/-- C14 amended: a tick executed in MiniToggling sends one toggle message (0x1F
or 0x1E by the toggle parity, which it flips) and raises no event; if activity
was heard it moves to Setting-1 with delay 40 ms; otherwise it increments the
retry counter and, if the counter is now above 3, moves to Toggling with delay
1000 ms, else moves to Resetting-1 with delay 40 ms. -/
theorem miniToggle_row (toggle active heard0 heard : Bool) (count : Nat) :
    tickWith ⟨TimerState.tsMiniToggle, toggle, active, heard0, count⟩ heard =
      if heard then
        (⟨TimerState.tsSet1, !toggle, active, false, count⟩,
         [TimerEffect.sendSpecial (if toggle then 0x1F else 0x1E),
          TimerEffect.setTimeoutMS 40])
      else if count + 1 > 3 then
        (⟨TimerState.tsToggle, !toggle, active, false, count + 1⟩,
         [TimerEffect.sendSpecial (if toggle then 0x1F else 0x1E),
          TimerEffect.setTimeoutMS 1000])
      else
        (⟨TimerState.tsReset1, !toggle, active, false, count + 1⟩,
         [TimerEffect.sendSpecial (if toggle then 0x1F else 0x1E),
          TimerEffect.setTimeoutMS 40]) := by
  cases heard
  · by_cases hc : count + 1 > 3
    · simp [tickWith, ChatPadTimerAction, timerSwitch, SendToggle, dispatchGot, hc]
    · simp [tickWith, ChatPadTimerAction, timerSwitch, SendToggle, dispatchGot, hc]
  · simp [tickWith, ChatPadTimerAction, timerSwitch, SendToggle, dispatchGot]

/-- One tick from a state satisfying the invariant: the invariant is kept, the
tick raises nothing, or one Connect (from an inactive accessory in Setting-3,
which becomes active), or one Disconnect (from an active accessory in Toggling,
which becomes inactive). -/
theorem tick_step (s : SerialState) (h : Bool) (hinv : handshakeInv s) :
    handshakeInv (tickWith s h).1 ∧
    ((eventsOf (tickWith s h).2 = [] ∧
        (tickWith s h).1.serialActive = s.serialActive) ∨
     (eventsOf (tickWith s h).2 = [TimerEffect.serialConnect] ∧
        s.serialActive = false ∧ (tickWith s h).1.serialActive = true ∧
        s.serialTimerState = TimerState.tsSet3) ∨
     (eventsOf (tickWith s h).2 = [TimerEffect.serialDisconnect] ∧
        s.serialActive = true ∧ (tickWith s h).1.serialActive = false ∧
        s.serialTimerState = TimerState.tsToggle)) ∧
    connectCount (tickWith s h).2 = (eventsOf (tickWith s h).2).count
      TimerEffect.serialConnect ∧
    disconnectCount (tickWith s h).2 = (eventsOf (tickWith s h).2).count
      TimerEffect.serialDisconnect := by
  obtain ⟨st, tg, act, hd, cnt⟩ := s
  obtain ⟨h1, h2, h3⟩ := hinv
  simp only at h1 h2 h3
  cases st <;> cases act <;> cases h <;>
    simp [tickWith, ChatPadTimerAction, timerSwitch, SendToggle, dispatchGot, handshakeInv,
      eventsOf, connectCount, disconnectCount] at h1 h3 ⊢ <;>
    first
      | omega
      | (split <;> simp <;> omega)

theorem allEffects_cons (st : TimerState) (eff : List TimerEffect)
    (log : List (TimerState × List TimerEffect)) :
    allEffects ((st, eff) :: log) = eff ++ allEffects log := by
  simp [allEffects]

theorem eventsOf_append (a b : List TimerEffect) :
    eventsOf (a ++ b) = eventsOf a ++ eventsOf b := by
  simp [eventsOf]

/-- The invariant holds after any run that starts in a state satisfying it. -/
theorem run_invariant (hs : List Bool) (s : SerialState) (hinv : handshakeInv s) :
    handshakeInv (runTicks s hs).1 := by
  induction hs generalizing s with
  | nil => exact hinv
  | cons h rest ih =>
    simp only [runTicks]
    exact ih (tickWith s h).1 (tick_step s h hinv).1

/-- The events of any run from a state satisfying the invariant alternate,
read from the activity of the accessory at the start of the run. -/
theorem run_alternates (hs : List Bool) (s : SerialState) (hinv : handshakeInv s) :
    alternatesFrom s.serialActive (eventsOf (allEffects (runTicks s hs).2)) = true := by
  induction hs generalizing s with
  | nil => rfl
  | cons h rest ih =>
    obtain ⟨hinv2, hev, _, _⟩ := tick_step s h hinv
    have ih2 := ih (tickWith s h).1 hinv2
    simp only [runTicks, allEffects_cons, eventsOf_append]
    rcases hev with ⟨he, ha⟩ | ⟨he, ha, hb, _⟩ | ⟨he, ha, hb, _⟩
    · rw [he, List.nil_append, ← ha]; exact ih2
    · rw [he, ha]; rw [hb] at ih2
      simp only [List.singleton_append, alternatesFrom, Bool.not_false, Bool.true_and]
      exact ih2
    · rw [he, ha]; rw [hb] at ih2
      simp only [List.singleton_append, alternatesFrom, Bool.true_and]
      exact ih2

theorem initial_invariant : handshakeInv initialSerialState := by
  refine ⟨?_, ?_, ?_⟩
  · intro h; exact absurd h (by decide)
  · decide
  · intro h; exact absurd rfl h

/-- C17: in every state reached from the initial state of `start` (Toggling,
inactive, retry counter 0, nothing heard) by any number of ticks with any
values of the activity-heard flag, an active accessory is in Toggling and the
retry counter is at most 4, and at most 3 outside Toggling. A further tick from
such a state raises at most one event in all (never both); it raises a Connect
only when it starts inactive (in Setting-3) and a Disconnect only when it starts
active (in Toggling). The connect and disconnect events of the whole run
alternate, beginning with a Connect. -/
theorem handshake_reachable_invariant (hs : List Bool) (h : Bool) :
    ((runTicks initialSerialState hs).1.serialActive = true →
      (runTicks initialSerialState hs).1.serialTimerState = TimerState.tsToggle) ∧
    (runTicks initialSerialState hs).1.serialResetCount ≤ 4 ∧
    ((runTicks initialSerialState hs).1.serialTimerState ≠ TimerState.tsToggle →
      (runTicks initialSerialState hs).1.serialResetCount ≤ 3) ∧
    connectCount (tickWith (runTicks initialSerialState hs).1 h).2 +
      disconnectCount (tickWith (runTicks initialSerialState hs).1 h).2 ≤ 1 ∧
    (connectCount (tickWith (runTicks initialSerialState hs).1 h).2 = 1 →
      (runTicks initialSerialState hs).1.serialActive = false ∧
      (runTicks initialSerialState hs).1.serialTimerState = TimerState.tsSet3) ∧
    (disconnectCount (tickWith (runTicks initialSerialState hs).1 h).2 = 1 →
      (runTicks initialSerialState hs).1.serialActive = true ∧
      (runTicks initialSerialState hs).1.serialTimerState = TimerState.tsToggle) ∧
    alternatesFrom false
      (eventsOf (allEffects (runTicks initialSerialState hs).2)) = true := by
  have hinv := run_invariant hs initialSerialState initial_invariant
  have halt := run_alternates hs initialSerialState initial_invariant
  obtain ⟨_, hev, hc, hd⟩ := tick_step (runTicks initialSerialState hs).1 h hinv
  refine ⟨hinv.1, hinv.2.1, hinv.2.2, ?_, ?_, ?_, halt⟩
  · rw [hc, hd]
    rcases hev with ⟨he, _⟩ | ⟨he, _⟩ | ⟨he, _⟩ <;> rw [he] <;> decide
  · intro h1
    rw [hc] at h1
    rcases hev with ⟨he, _⟩ | ⟨he, ha, _, hst⟩ | ⟨he, _⟩
    · rw [he] at h1; exact absurd h1 (by decide)
    · exact ⟨ha, hst⟩
    · rw [he] at h1; exact absurd h1 (by decide)
  · intro h1
    rw [hd] at h1
    rcases hev with ⟨he, _⟩ | ⟨he, _⟩ | ⟨he, ha, _, hst⟩
    · rw [he] at h1; exact absurd h1 (by decide)
    · rw [he] at h1; exact absurd h1 (by decide)
    · exact ⟨ha, hst⟩

/-! ## Theorems: stick shaping in `fiddleReport` -/

theorem toSInt16_compl {v : Int} (h : isSInt16 v) : toSInt16 (~~~v) = ~~~v := by
  apply toSInt16_of_range
  unfold isSInt16 at *
  rw [compl_eq]; omega

/-- C12 as stated fails: with all four inversion flags clear and both dead-zones
0, `fiddleReport` does not leave the sticks unchanged: both Y axes are
complemented (0 becomes -1). -/
theorem fiddleReport_flags_clear_counterexample :
    fiddleReport ⟨false, false, false, false, 0, 0, false, false, false, false⟩
        ⟨0, 0⟩ ⟨0, 0⟩ = (⟨0, -1⟩, ⟨0, -1⟩) ∧
    fiddleReport ⟨false, false, false, false, 0, 0, false, false, false, false⟩
        ⟨0, 0⟩ ⟨0, 0⟩ ≠ (⟨0, 0⟩, ⟨0, 0⟩) := by
  have h : fiddleReport ⟨false, false, false, false, 0, 0, false, false, false, false⟩
        ⟨0, 0⟩ ⟨0, 0⟩ = (⟨0, -1⟩, ⟨0, -1⟩) := by
    simp [fiddleReport, invertAxes, deadzoneLeftBlock, deadzoneRightBlock]
    decide
  refine ⟨h, ?_⟩
  rw [h]
  decide

/-- C12 amended: with both dead-zones 0 and signed 16-bit inputs, each X axis
(left.x, right.x) comes out as the bit-complement of the input if its inversion
flag is set and unchanged if the flag is clear, while each Y axis (left.y,
right.y) comes out unchanged if its inversion flag is set and as the
bit-complement of the input if the flag is clear; in particular with all four
flags clear both X axes are unchanged and both Y axes are complemented. -/
theorem fiddleReport_inversion (cfg : AxisSettings) (left right : XBOX360_HAT)
    (hdl : cfg.deadzoneLeft = 0) (hdr : cfg.deadzoneRight = 0)
    (hlx : isSInt16 left.x) (hly : isSInt16 left.y)
    (hrx : isSInt16 right.x) (hry : isSInt16 right.y) :
    (fiddleReport cfg left right).1.x = (if cfg.invertLeftX then ~~~left.x else left.x) ∧
    (fiddleReport cfg left right).1.y = (if cfg.invertLeftY then left.y else ~~~left.y) ∧
    (fiddleReport cfg left right).2.x = (if cfg.invertRightX then ~~~right.x else right.x) ∧
    (fiddleReport cfg left right).2.y = (if cfg.invertRightY then right.y else ~~~right.y) := by
  have e1 := toSInt16_compl hlx
  have e2 := toSInt16_compl hly
  have e3 := toSInt16_compl hrx
  have e4 := toSInt16_compl hry
  simp only [fiddleReport, invertAxes, deadzoneLeftBlock, deadzoneRightBlock, hdl, hdr, ne_eq,
    not_true_eq_false, if_false]
  cases cfg.invertLeftX <;> cases cfg.invertLeftY <;> cases cfg.invertRightX <;>
    cases cfg.invertRightY <;> simp [e1, e2, e3, e4]

theorem fiddleReport_inversion_witness :
    (fiddleReport ⟨true, false, false, true, 0, 0, false, false, false, false⟩
        ⟨5, 7⟩ ⟨-3, 9⟩).1.y = ~~~(7 : Int) :=
  (fiddleReport_inversion ⟨true, false, false, true, 0, 0, false, false, false, false⟩
    ⟨5, 7⟩ ⟨-3, 9⟩ rfl rfl (by decide) (by decide) (by decide) (by decide)).2.1

theorem normalizeAxis_0_100 : normalizeAxis 0 100 = 0 :=
  normalizeAxis_of_le (by decide)

/-- C13, the code at the failing input: no inversion (X flags clear, Y flags
set), left dead-zone 0, right dead-zone 100 with the linked and normalize flags
set, left stick (300, 0), right stick (200, 0). The right stick is above its
dead-zone, so by the claim it should become (`normalizeAxis(200,100)`,
`normalizeAxis(0,100)`) = (100, 0) and the left stick should stay (300, 0).
The code leaves the right stick at (200, 0) and rescales the left stick with
the right dead-zone to (200, 0); with the right normalize flag clear the left
stick stays (300, 0), so the right stick's settings change the left output. -/
theorem fiddleReport_right_linked_rescales_left :
    fiddleReport ⟨false, true, false, true, 0, 100, false, true, false, true⟩
        ⟨300, 0⟩ ⟨200, 0⟩ = (⟨200, 0⟩, ⟨200, 0⟩) ∧
    fiddleReport ⟨false, true, false, true, 0, 100, false, true, false, false⟩
        ⟨300, 0⟩ ⟨200, 0⟩ = (⟨300, 0⟩, ⟨200, 0⟩) ∧
    normalizeAxis 200 100 = 100 ∧ normalizeAxis 0 100 = 0 ∧
    fiddleReport ⟨false, true, false, true, 0, 100, false, true, false, true⟩
        ⟨300, 0⟩ ⟨200, 0⟩ ≠ (⟨300, 0⟩, ⟨100, 0⟩) := by
  have hge : ¬ (getAbsolute 200 < 100 ∧ getAbsolute 0 < 100) := by decide
  have h1 : fiddleReport ⟨false, true, false, true, 0, 100, false, true, false, true⟩
        ⟨300, 0⟩ ⟨200, 0⟩ = (⟨200, 0⟩, ⟨200, 0⟩) := by
    simp [fiddleReport, invertAxes, deadzoneLeftBlock, deadzoneRightBlock]
    rw [if_neg hge, normalizeAxis_300_100, normalizeAxis_0_100]
  have h2 : fiddleReport ⟨false, true, false, true, 0, 100, false, true, false, false⟩
        ⟨300, 0⟩ ⟨200, 0⟩ = (⟨300, 0⟩, ⟨200, 0⟩) := by
    simp [fiddleReport, invertAxes, deadzoneLeftBlock, deadzoneRightBlock]
    intro hlt
    exact absurd hlt (by decide)
  refine ⟨h1, h2, normalizeAxis_200_100, normalizeAxis_0_100, ?_⟩
  rw [h1]
  decide

/-! ## Theorems: re-arming reads -/

/-- The effects of `ReadComplete` with the pad handler attached, by status. -/
theorem ReadComplete_shape (inReport sizeofInReport : Nat) (c : ReadCtx) (status : IOReturn)
    (hpad : c.padHandlerAttached = true) :
    ReadComplete inReport sizeofInReport c status =
      match status with
      | IOReturn.kIOReturnOverrun =>
        [IOEffect.logOverrun] ++ (if c.inPipePresent then [IOEffect.clearStallIn] else [])
          ++ readSuccessCase inReport sizeofInReport c
          ++ (if c.inactive then [] else [IOEffect.queueRead])
      | IOReturn.kIOReturnSuccess =>
        readSuccessCase inReport sizeofInReport c
          ++ (if c.inactive then [] else [IOEffect.queueRead])
      | IOReturn.kIOReturnNotResponding => [IOEffect.logNotResponding]
      | IOReturn.otherStatus => [] := by
  cases status <;> cases hin : c.inactive <;> simp [ReadComplete, hpad, hin]

/-- The effects of `SerialReadComplete` with the pad handler attached, by status. -/
theorem SerialReadComplete_shape (c : SerialReadCtx) (status : IOReturn) (remaining : Nat)
    (hpad : c.padHandlerAttached = true) :
    (SerialReadComplete c status remaining).2 =
      match status with
      | IOReturn.kIOReturnOverrun =>
        [IOEffect.logOverrun]
          ++ (if c.serialInPipePresent then [IOEffect.clearStallSerialIn] else [])
          ++ serialSuccessCase c remaining
          ++ (if c.inactive then [] else [IOEffect.queueSerialRead])
      | IOReturn.kIOReturnSuccess =>
        serialSuccessCase c remaining
          ++ (if c.inactive then [] else [IOEffect.queueSerialRead])
      | IOReturn.kIOReturnNotResponding => [IOEffect.logNotResponding]
      | IOReturn.otherStatus => [] := by
  cases status <;> cases hin : c.inactive <;> simp [SerialReadComplete, hpad, hin]

/-- The success case of `ReadComplete` makes no call that arms a read. -/
theorem readSuccessCase_arms_nothing (inReport sizeofInReport : Nat) (c : ReadCtx) :
    ∀ e ∈ readSuccessCase inReport sizeofInReport c,
      e ≠ IOEffect.queueRead ∧ e ≠ IOEffect.queueSerialRead := by
  intro e he
  unfold readSuccessCase at he
  cases hb : c.inBuffer with
  | none => simp [hb] at he
  | some report =>
    simp only [hb] at he
    split at he
    · by_cases hr : c.handleReportResult = IOReturn.kIOReturnSuccess
      · simp [hr] at he
        subst he
        exact ⟨fun h => IOEffect.noConfusion h, fun h => IOEffect.noConfusion h⟩
      · simp [hr] at he
        rcases he with he | he <;> subst he <;>
          exact ⟨fun h => IOEffect.noConfusion h, fun h => IOEffect.noConfusion h⟩
    · simp at he

/-- The success case of `SerialReadComplete` makes no call that arms a read. -/
theorem serialSuccessCase_arms_nothing (c : SerialReadCtx) (remaining : Nat) :
    ∀ e ∈ serialSuccessCase c remaining,
      e ≠ IOEffect.queueRead ∧ e ≠ IOEffect.queueSerialRead := by
  intro e he
  unfold serialSuccessCase at he
  cases hb : c.serialInBuffer with
  | none => simp [hb] at he
  | some data =>
    simp only [hb, SerialMessage] at he
    split at he
    · split at he
      · simp at he
        subst he
        exact ⟨fun h => IOEffect.noConfusion h, fun h => IOEffect.noConfusion h⟩
      · simp at he
    · simp at he

theorem count_queue_zero {l : List IOEffect}
    (h : ∀ e ∈ l, e ≠ IOEffect.queueRead ∧ e ≠ IOEffect.queueSerialRead) :
    l.count IOEffect.queueRead = 0 ∧ l.count IOEffect.queueSerialRead = 0 :=
  ⟨List.count_eq_zero.mpr (fun hm => (h _ hm).1 rfl),
   List.count_eq_zero.mpr (fun hm => (h _ hm).2 rfl)⟩

theorem getLast_cons_append_singleton {α : Type} (a : α) (l : List α) (x : α) :
    (a :: (l ++ [x])).getLast? = some x := by
  have h : a :: (l ++ [x]) = (a :: l) ++ [x] := rfl
  rw [h, List.getLast?_append]
  rfl

/-- C11, primary endpoint and accessory endpoint alike: one invocation of the
read-completion handler with the pad handler attached (and the endpoint's pipe
and buffer present) calls `QueueRead` / `QueueSerialRead` exactly once, as its
last action, and through it submits exactly one read on the same endpoint and
none on the other, when the status is success or buffer overrun and the driver
is not inactive; on overrun the handler first logs and clears the stall on
that endpoint. It makes no such call and submits no read when the status is
device-not-responding or any other status, or when the driver is inactive. It
never calls the arming function or submits a read more than once. -/
theorem read_rearm_discipline (inReport sizeofInReport : Nat) (c : ReadCtx)
    (sc : SerialReadCtx) (status readResult : IOReturn) (remaining : Nat)
    (hpad : c.padHandlerAttached = true) (hspad : sc.padHandlerAttached = true)
    (hpipe : c.inPipePresent = true) (hbuf : c.inBuffer.isSome = true)
    (hspipe : sc.serialInPipePresent = true) (hsbuf : sc.serialInBuffer.isSome = true) :
    (((status = IOReturn.kIOReturnSuccess ∨ status = IOReturn.kIOReturnOverrun) ∧
        c.inactive = false) →
      (ReadComplete inReport sizeofInReport c status).count IOEffect.queueRead = 1 ∧
      (ReadComplete inReport sizeofInReport c status).getLast? = some IOEffect.queueRead ∧
      (ReadComplete inReport sizeofInReport c status).count IOEffect.queueSerialRead = 0 ∧
      (readsFromReadComplete inReport sizeofInReport c status readResult).count
        PipeEffect.inPipeRead = 1 ∧
      (readsFromReadComplete inReport sizeofInReport c status readResult).count
        PipeEffect.serialInPipeRead = 0) ∧
    (status = IOReturn.kIOReturnOverrun →
      (ReadComplete inReport sizeofInReport c status).take 2 =
        [IOEffect.logOverrun, IOEffect.clearStallIn]) ∧
    ((status = IOReturn.kIOReturnNotResponding ∨ status = IOReturn.otherStatus ∨
        c.inactive = true) →
      (ReadComplete inReport sizeofInReport c status).count IOEffect.queueRead = 0 ∧
      (ReadComplete inReport sizeofInReport c status).count IOEffect.queueSerialRead = 0 ∧
      readsFromReadComplete inReport sizeofInReport c status readResult = []) ∧
    (ReadComplete inReport sizeofInReport c status).count IOEffect.queueRead ≤ 1 ∧
    (readsFromReadComplete inReport sizeofInReport c status readResult).count
        PipeEffect.inPipeRead ≤ 1 ∧
    (((status = IOReturn.kIOReturnSuccess ∨ status = IOReturn.kIOReturnOverrun) ∧
        sc.inactive = false) →
      (SerialReadComplete sc status remaining).2.count IOEffect.queueSerialRead = 1 ∧
      (SerialReadComplete sc status remaining).2.getLast? = some IOEffect.queueSerialRead ∧
      (SerialReadComplete sc status remaining).2.count IOEffect.queueRead = 0 ∧
      (readsFromSerialReadComplete sc status remaining readResult).count
        PipeEffect.serialInPipeRead = 1 ∧
      (readsFromSerialReadComplete sc status remaining readResult).count
        PipeEffect.inPipeRead = 0) ∧
    (status = IOReturn.kIOReturnOverrun →
      (SerialReadComplete sc status remaining).2.take 2 =
        [IOEffect.logOverrun, IOEffect.clearStallSerialIn]) ∧
    ((status = IOReturn.kIOReturnNotResponding ∨ status = IOReturn.otherStatus ∨
        sc.inactive = true) →
      (SerialReadComplete sc status remaining).2.count IOEffect.queueSerialRead = 0 ∧
      (SerialReadComplete sc status remaining).2.count IOEffect.queueRead = 0 ∧
      readsFromSerialReadComplete sc status remaining readResult = []) ∧
    (SerialReadComplete sc status remaining).2.count IOEffect.queueSerialRead ≤ 1 ∧
    (readsFromSerialReadComplete sc status remaining readResult).count
        PipeEffect.serialInPipeRead ≤ 1 := by
  have hA := readSuccessCase_arms_nothing inReport sizeofInReport c
  have hB := serialSuccessCase_arms_nothing sc remaining
  have hA0 := count_queue_zero hA
  have hB0 := count_queue_zero hB
  have hAf : ∀ f : IOEffect → List PipeEffect,
      (∀ e, e ≠ IOEffect.queueRead → e ≠ IOEffect.queueSerialRead → f e = []) →
      (readSuccessCase inReport sizeofInReport c).flatMap f = [] := by
    intro f hf
    exact List.flatMap_eq_nil_iff.mpr (fun e he => hf e (hA e he).1 (hA e he).2)
  have hBf : ∀ f : IOEffect → List PipeEffect,
      (∀ e, e ≠ IOEffect.queueRead → e ≠ IOEffect.queueSerialRead → f e = []) →
      (serialSuccessCase sc remaining).flatMap f = [] := by
    intro f hf
    exact List.flatMap_eq_nil_iff.mpr (fun e he => hf e (hB e he).1 (hB e he).2)
  have hAf2 := hAf (fun e =>
      match e with
      | IOEffect.queueRead => (QueueRead true true readResult).2
      | _ => [])
    (by intro e h1 h2; cases e <;> first | rfl | exact absurd rfl h1)
  have hBf2 := hBf (fun e =>
      match e with
      | IOEffect.queueSerialRead => (QueueSerialRead true true readResult).2
      | _ => [])
    (by intro e h1 h2; cases e <;> first | rfl | exact absurd rfl h2)
  have hq : (QueueRead true true readResult).2.count PipeEffect.inPipeRead = 1 ∧
      (QueueRead true true readResult).2.count PipeEffect.serialInPipeRead = 0 := by
    cases readResult <;> exact ⟨rfl, rfl⟩
  have hsq : (QueueSerialRead true true readResult).2.count PipeEffect.serialInPipeRead = 1 ∧
      (QueueSerialRead true true readResult).2.count PipeEffect.inPipeRead = 0 := by
    cases readResult <;> exact ⟨rfl, rfl⟩
  have hrc := ReadComplete_shape inReport sizeofInReport c status hpad
  have hsrc := SerialReadComplete_shape sc status remaining hspad
  unfold readsFromReadComplete readsFromSerialReadComplete
  rw [hrc, hsrc, hpipe, hbuf, hspipe, hsbuf]
  cases status <;> cases c.inactive <;> cases sc.inactive <;>
    simp [List.count_append, hA0, hB0, hAf2, hBf2, hq, hsq, getLast_cons_append_singleton]

theorem read_rearm_discipline_witness :
    (ReadComplete 0 20 ⟨true, false, true, some ⟨0x20, 14, []⟩, IOReturn.kIOReturnSuccess⟩
      IOReturn.kIOReturnOverrun).count IOEffect.queueRead = 1 :=
  ((read_rearm_discipline 0 20
    ⟨true, false, true, some ⟨0x20, 14, []⟩, IOReturn.kIOReturnSuccess⟩
    ⟨true, false, true, some [0, 1, 2, 3, 4], true, false⟩
    IOReturn.kIOReturnOverrun IOReturn.kIOReturnSuccess 0 rfl rfl rfl rfl rfl rfl).1
    ⟨Or.inr rfl, rfl⟩).1

/-! ## Theorems: teardown and write buffers -/

/-- C15 as stated fails: on a fully started driver `ReleaseAll` begins by
terminating and releasing the accessory handler, not by cancelling the timer,
so a logical-device release precedes the timer cancel; and the accessory read
buffer is released before the primary read endpoint is aborted, so a buffer
release precedes an endpoint abort. -/
theorem ReleaseAll_order_counterexample :
    (ReleaseAll fullyStarted).2.head? = some ReleaseEffect.serialHandlerTerminate ∧
    precedes ReleaseEffect.serialTimerCancelTimeout ReleaseEffect.serialHandlerRelease
      (ReleaseAll fullyStarted).2 = false ∧
    precedes ReleaseEffect.serialTimerCancelTimeout ReleaseEffect.padHandlerRelease
      (ReleaseAll fullyStarted).2 = false ∧
    precedes ReleaseEffect.inPipeAbort ReleaseEffect.serialInBufferRelease
      (ReleaseAll fullyStarted).2 = false := by
  refine ⟨rfl, ?_, ?_, ?_⟩ <;> decide

/-- C15 amended: on a fully started driver `ReleaseAll` performs, in this
order: terminate and release the accessory handler, terminate and release the
pad handler, cancel the handshake timer (then remove and release it), abort
the accessory read endpoint, release the accessory read buffer, close the
accessory interface, abort the out endpoint, abort the primary read endpoint,
release the primary read buffer, close interface and device; afterwards no
object is left. So both logical devices are released before the timer is
cancelled, the timer is cancelled before any endpoint is aborted or buffer
released, and each read buffer is released after the abort of its own
endpoint. -/
theorem ReleaseAll_order :
    ReleaseAll fullyStarted =
      (⟨false, false, false, false, false, false, false, false, false, false, false⟩,
       [ReleaseEffect.serialHandlerTerminate, ReleaseEffect.serialHandlerRelease,
        ReleaseEffect.padHandlerTerminate, ReleaseEffect.padHandlerRelease,
        ReleaseEffect.serialTimerCancelTimeout, ReleaseEffect.removeEventSource,
        ReleaseEffect.serialTimerRelease,
        ReleaseEffect.serialInPipeAbort, ReleaseEffect.serialInPipeRelease,
        ReleaseEffect.serialInBufferRelease, ReleaseEffect.serialInClose,
        ReleaseEffect.outPipeAbort, ReleaseEffect.outPipeRelease,
        ReleaseEffect.inPipeAbort, ReleaseEffect.inPipeRelease,
        ReleaseEffect.inBufferRelease, ReleaseEffect.interfaceClose,
        ReleaseEffect.deviceClose]) ∧
    precedes ReleaseEffect.serialHandlerRelease ReleaseEffect.serialTimerCancelTimeout
      (ReleaseAll fullyStarted).2 = true ∧
    precedes ReleaseEffect.padHandlerRelease ReleaseEffect.serialTimerCancelTimeout
      (ReleaseAll fullyStarted).2 = true ∧
    precedes ReleaseEffect.serialTimerCancelTimeout ReleaseEffect.serialInPipeAbort
      (ReleaseAll fullyStarted).2 = true ∧
    precedes ReleaseEffect.serialTimerCancelTimeout ReleaseEffect.inPipeAbort
      (ReleaseAll fullyStarted).2 = true ∧
    precedes ReleaseEffect.serialInPipeAbort ReleaseEffect.serialInBufferRelease
      (ReleaseAll fullyStarted).2 = true ∧
    precedes ReleaseEffect.inPipeAbort ReleaseEffect.inBufferRelease
      (ReleaseAll fullyStarted).2 = true := by
  refine ⟨rfl, ?_, ?_, ?_, ?_, ?_, ?_⟩ <;> decide

/-- C16, the code at the failing input and on the other path: when the buffer
is allocated and `outPipe->Write` returns an error, `QueueWrite` logs, makes
one submit and returns false without releasing the buffer, so over the life of
that write the buffer is released zero times. When the submit succeeds the
buffer is released exactly once, by `WriteComplete`, whatever the completion
status. -/
theorem QueueWrite_submit_failure_keeps_buffer (completionStatus : IOReturn) :
    QueueWrite true IOReturn.kIOReturnNotResponding =
      (false, [WriteEffect.allocateBuffer, WriteEffect.writeBytes, WriteEffect.outPipeWrite,
        WriteEffect.logFailedToStart]) ∧
    (writeLifetime true IOReturn.kIOReturnNotResponding completionStatus).count
      WriteEffect.releaseBuffer = 0 ∧
    (writeLifetime true IOReturn.kIOReturnNotResponding completionStatus).count
      WriteEffect.outPipeWrite = 1 ∧
    (QueueWrite true IOReturn.kIOReturnSuccess).1 = true ∧
    (writeLifetime true IOReturn.kIOReturnSuccess completionStatus).count
      WriteEffect.releaseBuffer = 1 ∧
    (WriteComplete completionStatus).count WriteEffect.releaseBuffer = 1 := by
  cases completionStatus <;> exact ⟨rfl, rfl, rfl, rfl, rfl, rfl⟩

/-! ## Theorems: outcome of `start` -/

theorem endsAtFail_cons (e : StartEffect) (o : Option Bool × List StartEffect)
    (he : afterStart e = false) (ho : endsAtFail o) : endsAtFail (o.1, e :: o.2) := by
  obtain ⟨h1, pre, h2, h3⟩ := ho
  refine ⟨h1, e :: pre, ?_, ?_⟩
  · show e :: o.2 = e :: pre ++ [StartEffect.releaseAll]
    rw [h2]; rfl
  · intro x hx
    rcases List.mem_cons.mp hx with h | h
    · rw [h]; exact he
    · exact h3 x h

/-- Passing a safe statement list: if the rest of the program ends at `fail`
both when entered normally and when entered on the way to `fail`, so does the
list followed by the rest, entered normally or on the way to `fail` or to a
label of the list. -/
theorem exec_safePrefix (r : StartResults) (rest : List Stmt)
    (hrest : endsAtFail (exec r none rest) ∧ endsAtFail (exec r (some Label.fail) rest)) :
    ∀ (p : List Stmt), safePrefix p = true →
      endsAtFail (exec r none (p ++ rest)) ∧
      ∀ l, (l = Label.fail ∨ hasLabel l p = true) →
        endsAtFail (exec r (some l) (p ++ rest)) := by
  intro p
  induction p with
  | nil =>
    intro _
    refine ⟨hrest.1, ?_⟩
    intro l hl
    rcases hl with hl | hl
    · rw [hl]; exact hrest.2
    · simp [hasLabel] at hl
  | cons s p ih =>
    intro hsafe
    cases s with
    | run guard e =>
      simp only [safePrefix, Bool.and_eq_true, Bool.not_eq_true'] at hsafe
      obtain ⟨ih1, ih2⟩ := ih hsafe.2
      constructor
      · simp only [List.cons_append, exec]
        split
        · exact endsAtFail_cons e _ hsafe.1 ih1
        · exact ih1
      · intro l hl
        simp only [List.cons_append, exec]
        exact ih2 l (by simpa [hasLabel] using hl)
    | goto guard l0 =>
      simp only [safePrefix, Bool.and_eq_true, Bool.or_eq_true, decide_eq_true_eq] at hsafe
      obtain ⟨ih1, ih2⟩ := ih hsafe.2
      constructor
      · simp only [List.cons_append, exec]
        split
        · exact ih2 l0 hsafe.1
        · exact ih1
      · intro l hl
        simp only [List.cons_append, exec]
        exact ih2 l (by simpa [hasLabel] using hl)
    | ret guard value =>
      simp [safePrefix] at hsafe
    | label l' =>
      simp only [safePrefix] at hsafe
      obtain ⟨ih1, ih2⟩ := ih hsafe
      constructor
      · simp only [List.cons_append, exec]
        exact ih1
      · intro l hl
        simp only [List.cons_append, exec]
        split
        · exact ih1
        · rename_i hne
          apply ih2 l
          rcases hl with hl | hl
          · exact Or.inl hl
          · simp only [hasLabel, Bool.or_eq_true, decide_eq_true_eq] at hl
            rcases hl with hl | hl
            · exact absurd hl hne
            · exact Or.inr hl

/-- From the `goto fail` of line 532 on, the run ends at `fail`. -/
theorem startTail_endsAtFail (r : StartResults) :
    endsAtFail (exec r none startTail) ∧ endsAtFail (exec r (some Label.fail) startTail) := by
  have h1 : exec r none startTail = (some false, [StartEffect.releaseAll]) := rfl
  have h2 : exec r (some Label.fail) startTail = (some false, [StartEffect.releaseAll]) := rfl
  rw [h1, h2]
  exact ⟨⟨rfl, [], rfl, by intro e he; cases he⟩, ⟨rfl, [], rfl, by intro e he; cases he⟩⟩

theorem startBody_safe : safePrefix (startDevice ++ startPipes) = true := by
  rfl

/-- The statements run after `super::start` has succeeded end at `fail`. -/
theorem startBody_endsAtFail (r : StartResults) :
    endsAtFail (exec r none ((startDevice ++ startPipes) ++ startTail)) :=
  (exec_safePrefix r startTail (startTail_endsAtFail r) (startDevice ++ startPipes)
    startBody_safe).1

theorem startProgram_eq :
    startProgram =
      Stmt.run always (StartEffect.stmt 354) :: Stmt.ret (fun r => !r.superStart) false ::
        ((startDevice ++ startPipes) ++ startTail) := rfl

theorem start_eq (r : StartResults) :
    start r =
      if r.superStart then
        ((exec r none ((startDevice ++ startPipes) ++ startTail)).1,
         StartEffect.stmt 354 :: (exec r none ((startDevice ++ startPipes) ++ startTail)).2)
      else (some false, [StartEffect.stmt 354]) := by
  unfold start
  rw [startProgram_eq]
  generalize (startDevice ++ startPipes) ++ startTail = rest
  simp only [exec, always, if_true]
  by_cases hs : r.superStart = true
  · simp [hs]
  · simp [hs]

/-- What a run that ends at `fail` contains. -/
theorem endsAtFail_facts (o : Option Bool × List StartEffect) (ho : endsAtFail o) :
    o.1 = some false ∧ o.2.getLast? = some StartEffect.releaseAll ∧
    o.2.count StartEffect.releaseAll = 1 ∧
    ∀ e ∈ o.2, afterStart e = true → e = StartEffect.releaseAll := by
  obtain ⟨h1, pre, h2, h3⟩ := ho
  refine ⟨h1, ?_, ?_, ?_⟩
  · rw [h2, List.getLast?_append]; rfl
  · rw [h2, List.count_append]
    have : pre.count StartEffect.releaseAll = 0 := by
      apply List.count_eq_zero.mpr
      intro hm
      have := h3 _ hm
      simp [afterStart] at this
    rw [this]; rfl
  · intro e he ha
    rw [h2] at he
    rcases List.mem_append.mp he with h | h
    · rw [h3 e h] at ha; exact absurd ha (by decide)
    · simpa using h

/-- C18: for every combination of results returned by the collaborators,
`start` returns false. When `super::start` fails it returns at once. Every run
that passes `super::start` reaches the label `fail`: `ReleaseAll` is called
exactly once, as the last statement before `return false`; and no run calls
`PadConnect`, `registerService` or `QueueWrite` (the initial LED and init
writes of lines 540-552). -/
theorem start_always_fails (r : StartResults) :
    (start r).1 = some false ∧
    (r.superStart = false → (start r).2 = [StartEffect.stmt 354]) ∧
    (r.superStart = true →
      (start r).2.getLast? = some StartEffect.releaseAll ∧
      (start r).2.count StartEffect.releaseAll = 1) ∧
    StartEffect.padConnect ∉ (start r).2 ∧
    StartEffect.registerService ∉ (start r).2 ∧
    (∀ line, StartEffect.queueWrite line ∉ (start r).2) := by
  have heq := start_eq r
  cases hs : r.superStart with
  | false =>
    rw [hs] at heq
    simp only [Bool.false_eq_true, if_false] at heq
    rw [heq]
    refine ⟨rfl, fun _ => rfl, fun h => absurd h (by decide), ?_, ?_, ?_⟩
    · decide
    · decide
    · intro line h
      simp at h
  | true =>
    rw [hs] at heq
    simp only [if_true] at heq
    have hgood := endsAtFail_cons (StartEffect.stmt 354) _ rfl (startBody_endsAtFail r)
    rw [← heq] at hgood
    obtain ⟨f1, f2, f3, f4⟩ := endsAtFail_facts _ hgood
    refine ⟨f1, fun h => absurd h (by decide), fun _ => ⟨f2, f3⟩, ?_, ?_, ?_⟩
    · intro hm
      exact absurd (f4 _ hm rfl) (by decide)
    · intro hm
      exact absurd (f4 _ hm rfl) (by decide)
    · intro line hm
      exact StartEffect.noConfusion (f4 _ hm rfl)

end Xbox360Peripheral
